import Mathlib

/-!
# Verification of the CRUD reconciliation pattern of terraform-provider-azurerm

This file gives a shallow embedding, in Lean 4, of the per-resource
Create/Read/Update/Delete handlers of the provider, and proves (or refutes)
the testable properties of the specification against them.

The remote API is modelled by passing the outcome of each outbound call
explicitly (`GetResult`, `OpResult`); the Terraform state of one resource
instance is a small record per resource, and each handler is a pure function
from its configuration inputs, the call outcomes and the prior state to an
`Outcome` (new state, error keeping the state unchanged, or a nil-pointer
panic where the Go code dereferences without a check).

Embedded resources (file / function names follow the source):
* `azurerm_network_interface_backend_address_pool_association`
* `azurerm_iothub_route`
* `azurerm_subnet_nat_gateway_association`
* `azurerm_resource_group`
* `azurerm_virtual_machine_scale_set_extension`
* `azurerm_backup_container_storage_account`
-/

namespace AzureRM

/-- Result of one remote GET: the Go pattern `resp, err := client.Get(...)`
together with the `utils.ResponseWasNotFound(resp.Response)` test, which the
spec requires to be distinguishable from every other error class. -/
inductive GetResult (α : Type) where
  | ok (val : α)
  | notFound
  | failed (msg : String)
deriving DecidableEq, Repr

/-- Result of a remote mutation submission or of awaiting a long-running
operation (`client.CreateOrUpdate` / `future.WaitForCompletionRef`). -/
inductive OpResult where
  | ok
  | failed (msg : String)
deriving DecidableEq, Repr

/-- The error classes produced by the embedded handlers; each constructor
corresponds to one class of `return fmt.Errorf(...)` / `tf.ImportAsExistsError`
call sites in the source. -/
inductive Err where
  /-- "X %q (Resource Group %q) was not found" at the parent fetch. -/
  | parentNotFound (kind name scope : String)
  /-- "Error retrieving/loading X ...: %+v" wrapping a remote error. -/
  | retrieveFailed (msg : String)
  /-- "`properties` was nil for ..." style nil-check failures. -/
  | propsNil (what : String)
  /-- "`properties.IPConfigurations` was nil for ...". -/
  | ipConfigsNil (what : String)
  /-- "IP Configuration %q was not found on Network Interface ...". -/
  | ipConfigNotFound (name : String)
  /-- `tf.ImportAsExistsError(resourceType, id)`: the Conflict error. -/
  | importAsExists (resourceType resourceId : String)
  /-- "Error creating/updating/removing ...: %+v" at the mutation submit. -/
  | submitFailed (msg : String)
  /-- "Error waiting for ...: %+v" at the long-running-operation wait. -/
  | waitFailed (msg : String)
  /-- "Expected ID to be in the format ... but got %q". -/
  | malformedId (got : String)
  /-- an identifier-parse error propagated verbatim (`return err`). -/
  | parseFailed (msg : String)
  /-- "Unable to find Route %q defined for IotHub ..." on Update. -/
  | routeNotFound (name : String)
  /-- "Error checking for presence of existing ...: %+v". -/
  | checkExistingFailed (msg : String)
  /-- "Location header missing or empty" on an async operation response. -/
  | locationHeaderMissing (what : String)
  /-- "[ERROR] parsed storage_account_id '%s' doesn't contain 'storageAccounts'". -/
  | missingPathKey (key : String)
deriving DecidableEq, Repr

/-- Result of one lifecycle handler: success (with final state and, for
mutating handlers, the payload submitted to the remote API), an error
(carrying the local state as left by the handler, so that frame properties
can be stated), or a nil-pointer dereference in the Go original. -/
inductive Outcome (σ : Type) (α : Type) where
  | ok (state : σ) (val : α)
  | err (e : Err) (state : σ)
  | panics
deriving DecidableEq, Repr

/-! ## Strings: Go's `strings.Split` with a one-character separator -/

/-- Go's `strings.Split(s, sep)` for a single-character separator, on the
character list of the string: `splitOnChar c l` never returns `[]`, and
returns `[l]` when `c` does not occur in `l`. -/
def splitOnChar (c : Char) : List Char → List (List Char)
  | [] => [[]]
  | x :: xs =>
    if x = c then
      [] :: splitOnChar c xs
    else
      match splitOnChar c xs with
      | [] => [[x]]
      | y :: ys => (x :: y) :: ys

/-- `strings.Split` on whole strings. -/
def goSplit (s : String) (c : Char) : List String :=
  (splitOnChar c s.data).map List.asString

theorem splitOnChar_ne_nil (c : Char) (l : List Char) : splitOnChar c l ≠ [] := by
  cases l with
  | nil => simp [splitOnChar]
  | cons x xs =>
    simp only [splitOnChar]
    split
    · simp
    · split
      · simp
      · simp

/-- A separator-free list splits into itself. -/
theorem splitOnChar_not_mem {c : Char} {l : List Char} (h : c ∉ l) :
    splitOnChar c l = [l] := by
  induction l with
  | nil => rfl
  | cons x xs ih =>
    simp only [List.mem_cons, not_or] at h
    simp only [splitOnChar]
    rw [if_neg (fun hx => h.1 hx.symm), ih h.2]

/-- Splitting a list with one separator occurrence after a separator-free
prefix peels off the prefix. -/
theorem splitOnChar_append {c : Char} {a : List Char} (b : List Char)
    (h : c ∉ a) : splitOnChar c (a ++ c :: b) = a :: splitOnChar c b := by
  induction a with
  | nil => simp [splitOnChar]
  | cons x xs ih =>
    simp only [List.mem_cons, not_or] at h
    simp only [List.cons_append, splitOnChar]
    rw [if_neg (fun hx => h.1 hx.symm), List.append_eq, ih h.2]

/-- `strings.EqualFold`, modelled as ASCII-case-insensitive equality. -/
def eqFold (a b : String) : Bool :=
  a.data.map Char.toLower == b.data.map Char.toLower

/-! ## Resource Identifier Codec

`azure.ParseAzureResourceID` lives in `helpers/azure`, which is not among the
source files; it is modelled below from the spec's codec contract. -/

/-- The decomposed Azure resource identifier: subscription, resource group,
provider namespace and the remaining key/value path segments. -/
structure ResourceID where
  subscriptionID : String
  resourceGroup : String
  provider : String
  path : List (String × String)
deriving DecidableEq, Repr

/-- Go's `id.Path[key]` map access: the zero value `""` when absent. -/
def ResourceID.pathGet (r : ResourceID) (key : String) : String :=
  ((r.path.find? (fun p => p.1 = key)).map Prod.snd).getD ""

/-- Pair up an even-length segment list into key/value pairs. -/
def segmentPairs : List String → Option (List (String × String))
  | [] => some []
  | [_] => none
  | k :: v :: rest => (segmentPairs rest).map ((k, v) :: ·)

/-- `strings.TrimPrefix(path, "/")`: drop one leading slash, if present. -/
def dropLeadingSlash (l : List Char) : List Char :=
  if l.head? = some '/' then l.tail else l

/-- `strings.TrimSuffix(path, "/")`: drop one trailing slash, if present. -/
def dropTrailingSlash (l : List Char) : List Char :=
  if l.getLast? = some '/' then l.dropLast else l

/-- Trim one leading and one trailing slash from the path. -/
def trimSlashes (l : List Char) : List Char :=
  dropTrailingSlash (dropLeadingSlash l)

/-- The key/value stage of the identifier decode: every key and value must
be non-empty, a subscription ID and a resource group must be present, the
provider namespace is optional, and the remaining pairs form the typed
sub-path. -/
def parsePairs (input : String) (pairs : List (String × String)) :
    Except String ResourceID :=
  if pairs.any (fun p => p.1 = "" ∨ p.2 = "") then
    .error "ID contained an empty key or value"
  else
    match (pairs.find? (fun p => p.1 = "subscriptions")).map Prod.snd with
    | none => .error ("no subscription ID found in " ++ input)
    | some sub =>
      match (pairs.find? (fun p => p.1 = "resourceGroups")).map Prod.snd with
      | none => .error ("no resource group found in " ++ input)
      | some rg =>
        .ok { subscriptionID := sub, resourceGroup := rg,
              provider := (((pairs.find? (fun p => p.1 = "providers")).map Prod.snd).getD ""),
              path := pairs.filter
                (fun p => p.1 ≠ "subscriptions" ∧ p.1 ≠ "resourceGroups" ∧ p.1 ≠ "providers") }

/-- The segment stage of the identifier decode: the segments must pair up. -/
def parseComponents (input : String) (components : List String) :
    Except String ResourceID :=
  match segmentPairs components with
  | none => .error ("the number of path segments is not divisible by 2 in " ++ input)
  | some pairs => parsePairs input pairs

/-- Modelled from the spec: `azure.ParseAzureResourceID` (in `helpers/azure`,
not under the provided sources) — the codec's `decode(string) -> fields | error`
for a plain Azure resource ID.  Per the spec it must error when the input does
not match the expected segment count/pattern, and must recover the composite
key (parent scope + type + name [+ sub-path segments]): the path is trimmed
of outer slashes, split on `/`, must pair up into non-empty key/value
segments, and must carry a subscription ID and resource group. -/
def parseAzureResourceID (input : String) : Except String ResourceID :=
  parseComponents input ((splitOnChar '/' (trimSlashes input.data)).map List.asString)

/-- The composite identifier written by
`resourceNetworkInterfaceBackendAddressPoolAssociationCreate`:
`fmt.Sprintf("%s/ipConfigurations/%s|%s", networkInterfaceId,
ipConfigurationName, backendAddressPoolId)`. -/
def encodeAssociationId (networkInterfaceId ipConfigurationName backendAddressPoolId : String) : String :=
  networkInterfaceId ++ "/ipConfigurations/" ++ ipConfigurationName ++ "|" ++ backendAddressPoolId

/-- The fields recovered from the composite identifier by the Read/Delete
handlers of the association resource. -/
structure AssocFields where
  resourceGroup : String
  networkInterfaceName : String
  ipConfigurationName : String
  backendAddressPoolId : String
deriving DecidableEq, Repr

/-- The second decode stage: parse the nic part as an Azure resource ID and
take the `ipConfigurations` / `networkInterfaces` path entries and the
resource group from it. -/
def decodeNicPart (nicIdPart backendAddressPoolId : String) : Except Err AssocFields :=
  match parseAzureResourceID nicIdPart with
  | .error e => .error (.parseFailed e)
  | .ok nicID =>
    .ok { resourceGroup := nicID.resourceGroup
          networkInterfaceName := nicID.pathGet "networkInterfaces"
          ipConfigurationName := nicID.pathGet "ipConfigurations"
          backendAddressPoolId := backendAddressPoolId }

/-- The decode steps shared verbatim by
`resourceNetworkInterfaceBackendAddressPoolAssociationRead` and `...Delete`:
split the ID on `|`, insist on exactly two segments, parse the first as an
Azure resource ID and take the `ipConfigurations` / `networkInterfaces` path
entries and the resource group from it. -/
def decodeAssociationId (id : String) : Except Err AssocFields :=
  match goSplit id '|' with
  | [nicIdPart, backendAddressPoolId] => decodeNicPart nicIdPart backendAddressPoolId
  | _ => .error (.malformedId id)

/-! ## Network interface model (Azure SDK `network` package, as used here) -/

/-- `network.BackendAddressPool`, restricted to the field the handlers use. -/
structure BackendAddressPool where
  id : Option String
deriving DecidableEq, Repr

/-- `network.InterfaceIPConfigurationPropertiesFormat`, restricted. -/
structure InterfaceIPConfigurationPropertiesFormat where
  loadBalancerBackendAddressPools : Option (List BackendAddressPool)
deriving DecidableEq, Repr

/-- `network.InterfaceIPConfiguration`, restricted. -/
structure InterfaceIPConfiguration where
  name : Option String
  properties : Option InterfaceIPConfigurationPropertiesFormat
deriving DecidableEq, Repr

/-- `network.InterfacePropertiesFormat`, restricted. -/
structure InterfacePropertiesFormat where
  ipConfigurations : Option (List InterfaceIPConfiguration)
deriving DecidableEq, Repr

/-- `network.Interface`, restricted. -/
structure Interface where
  id : Option String
  properties : Option InterfacePropertiesFormat
deriving DecidableEq, Repr

/-- Modelled from the spec: the helper `FindNetworkInterfaceIPConfiguration`
(in `network_interface_helpers.go`, not under the provided sources) resolving
the named nested element of the read-modify-write cycle — the first IP
configuration whose (non-nil) name matches case-insensitively, if any. -/
def FindNetworkInterfaceIPConfiguration
    (input : Option (List InterfaceIPConfiguration)) (name : String) :
    Option InterfaceIPConfiguration :=
  match input with
  | none => none
  | some configs =>
    configs.find? (fun v =>
      match v.name with
      | some n => eqFold n name
      | none => false)

/-- Modelled from the spec: the helper `updateNetworkInterfaceIPConfiguration`
(in `network_interface_helpers.go`, not under the provided sources) writing
the mutated named element back into the parent's collection, leaving sibling
elements intact. -/
def updateNetworkInterfaceIPConfiguration
    (config : InterfaceIPConfiguration)
    (configs : Option (List InterfaceIPConfiguration)) :
    Option (List InterfaceIPConfiguration) :=
  match configs with
  | none => some []
  | some existing =>
    some (existing.map (fun v =>
      match v.name, config.name with
      | some n, some cn => if eqFold n cn then config else v
      | _, _ => v))

/-! ## azurerm_network_interface_backend_address_pool_association -/

/-- Terraform state of one association instance: the opaque resource ID plus
the flat attributes of the schema. -/
structure AssocState where
  id : String
  networkInterfaceId : String
  ipConfigurationName : String
  backendAddressPoolId : String
deriving DecidableEq, Repr

/-- The payload the mutating handlers submit via `client.CreateOrUpdate`:
the full parent interface, together with the `pools` collection that was
written into the named IP configuration. -/
structure NicSubmission where
  request : Interface
  pools : List BackendAddressPool
deriving DecidableEq, Repr

/-- Outcomes of the remote calls made by the Create handler, in call order. -/
structure NicCreateEnv where
  get : GetResult Interface
  createOrUpdate : OpResult
  wait : OpResult
deriving Repr

/-- The existence-check-and-collect loop of the Create handler: walk the
pre-existing pools, erroring on an entry whose (non-nil) ID equals the new
backend address pool ID, keeping other non-nil-ID entries, dropping nil-ID
entries. -/
def collectPools (backendAddressPoolId : String) :
    List BackendAddressPool → Except Unit (List BackendAddressPool)
  | [] => .ok []
  | existingPool :: rest =>
    match existingPool.id with
    | some i =>
      if i = backendAddressPoolId then
        .error ()
      else
        (collectPools backendAddressPoolId rest).map (existingPool :: ·)
    | none => collectPools backendAddressPoolId rest

/-- `resourceNetworkInterfaceBackendAddressPoolAssociationCreate`: lock the
interface, fetch it (missing parent is an error), locate the named IP
configuration, refuse with `tf.ImportAsExistsError` when the pool is already
associated, append the new pool to the surviving entries, submit, await, and
only then persist the composite identifier.  The trailing re-Read of the
source is the separate Read handler below. -/
def resourceNetworkInterfaceBackendAddressPoolAssociationCreate
    (networkInterfaceId ipConfigurationName backendAddressPoolId : String)
    (env : NicCreateEnv) (d : AssocState) : Outcome AssocState NicSubmission :=
  match parseAzureResourceID networkInterfaceId with
  | .error e => .err (.parseFailed e) d
  | .ok nicID =>
    let networkInterfaceName := nicID.pathGet "networkInterfaces"
    let resourceGroup := nicID.resourceGroup
    match env.get with
    | .notFound => .err (.parentNotFound "Network Interface" networkInterfaceName resourceGroup) d
    | .failed msg => .err (.retrieveFailed msg) d
    | .ok read =>
      match read.properties with
      | none => .err (.propsNil networkInterfaceName) d
      | some props =>
        match props.ipConfigurations with
        | none => .err (.ipConfigsNil networkInterfaceName) d
        | some _ =>
          match FindNetworkInterfaceIPConfiguration props.ipConfigurations ipConfigurationName with
          | none => .err (.ipConfigNotFound ipConfigurationName) d
          | some config =>
            match config.properties with
            | none => .err (.propsNil ipConfigurationName) d
            | some p =>
              let resourceId :=
                encodeAssociationId networkInterfaceId ipConfigurationName backendAddressPoolId
              match collectPools backendAddressPoolId
                  (p.loadBalancerBackendAddressPools.getD []) with
              | .error _ =>
                .err (.importAsExists
                  "azurerm_network_interface_backend_address_pool_association" resourceId) d
              | .ok existingPools =>
                let pool : BackendAddressPool := { id := some backendAddressPoolId }
                let pools := existingPools ++ [pool]
                let p' := { p with loadBalancerBackendAddressPools := some pools }
                let config' := { config with properties := some p' }
                let props' := { props with ipConfigurations :=
                  updateNetworkInterfaceIPConfiguration config' props.ipConfigurations }
                let request : Interface := { read with properties := some props' }
                match env.createOrUpdate with
                | .failed msg => .err (.submitFailed msg) d
                | .ok =>
                  match env.wait with
                  | .failed msg => .err (.waitFailed msg) d
                  | .ok => .ok { d with id := resourceId } ⟨request, pools⟩

/-- Outcomes of the remote calls made by the Read handler. -/
structure NicReadEnv where
  get : GetResult Interface
deriving Repr

/-- `resourceNetworkInterfaceBackendAddressPoolAssociationRead`: decode the
composite identifier, fetch the parent; a missing parent, a missing named IP
configuration or a missing pool entry all clear the resource ID and succeed;
only non-not-found remote errors (and nil `properties` /
`properties.IPConfigurations`) fail. -/
def resourceNetworkInterfaceBackendAddressPoolAssociationRead
    (env : NicReadEnv) (d : AssocState) : Outcome AssocState Unit :=
  match decodeAssociationId d.id with
  | .error e => .err e d
  | .ok ids =>
    match env.get with
    | .notFound => .ok { d with id := "" } ()
    | .failed msg => .err (.retrieveFailed msg) d
    | .ok read =>
      match read.properties with
      | none => .err (.propsNil ids.networkInterfaceName) d
      | some nicProps =>
        match nicProps.ipConfigurations with
        | none => .err (.ipConfigsNil ids.networkInterfaceName) d
        | some _ =>
          match FindNetworkInterfaceIPConfiguration nicProps.ipConfigurations ids.ipConfigurationName with
          | none => .ok { d with id := "" } ()
          | some config =>
            let found :=
              match config.properties with
              | some props =>
                (props.loadBalancerBackendAddressPools.getD []).any
                  (fun pool => pool.id = some ids.backendAddressPoolId)
              | none => false
            if found then
              .ok { d with backendAddressPoolId := ids.backendAddressPoolId,
                           ipConfigurationName := ids.ipConfigurationName,
                           networkInterfaceId := read.id.getD "" } ()
            else
              .ok { d with id := "" } ()

/-- Outcomes of the remote calls made by the Delete handler, in call order. -/
structure NicDeleteEnv where
  get : GetResult Interface
  createOrUpdate : OpResult
  wait : OpResult
deriving Repr

/-- `resourceNetworkInterfaceBackendAddressPoolAssociationDelete`: decode the
identifier, fetch the parent (a missing parent is an error, not an idempotent
success), keep every pool whose non-nil ID differs from the targeted one,
write the filtered collection back and submit it. -/
def resourceNetworkInterfaceBackendAddressPoolAssociationDelete
    (env : NicDeleteEnv) (d : AssocState) : Outcome AssocState NicSubmission :=
  match decodeAssociationId d.id with
  | .error e => .err e d
  | .ok ids =>
    match env.get with
    | .notFound => .err (.parentNotFound "Network Interface" ids.networkInterfaceName ids.resourceGroup) d
    | .failed msg => .err (.retrieveFailed msg) d
    | .ok read =>
      match read.properties with
      | none => .err (.propsNil ids.networkInterfaceName) d
      | some nicProps =>
        match nicProps.ipConfigurations with
        | none => .err (.ipConfigsNil ids.networkInterfaceName) d
        | some _ =>
          match FindNetworkInterfaceIPConfiguration nicProps.ipConfigurations ids.ipConfigurationName with
          | none => .err (.ipConfigNotFound ids.ipConfigurationName) d
          | some config =>
            match config.properties with
            | none => .err (.propsNil ids.ipConfigurationName) d
            | some props =>
              let backendAddressPools :=
                (props.loadBalancerBackendAddressPools.getD []).filter
                  (fun pool =>
                    match pool.id with
                    | some i => i ≠ ids.backendAddressPoolId
                    | none => false)
              let props' := { props with loadBalancerBackendAddressPools := some backendAddressPools }
              let config' := { config with properties := some props' }
              let nicProps' := { nicProps with ipConfigurations :=
                updateNetworkInterfaceIPConfiguration config' nicProps.ipConfigurations }
              let request : Interface := { read with properties := some nicProps' }
              match env.createOrUpdate with
              | .failed msg => .err (.submitFailed msg) d
              | .ok =>
                match env.wait with
                | .failed msg => .err (.waitFailed msg) d
                | .ok => .ok d ⟨request, backendAddressPools⟩

/-! ## IoT Hub model (Azure SDK `devices` package, as used here) -/

/-- `devices.RouteProperties`, restricted to the fields the handlers use. -/
structure RouteProperties where
  name : Option String
  source : String
  condition : Option String
  endpointNames : Option (List String)
  isEnabled : Option Bool
deriving DecidableEq, Repr

/-- `devices.RoutingProperties`, restricted. -/
structure RoutingProperties where
  routes : Option (List RouteProperties)
deriving DecidableEq, Repr

/-- `devices.IotHubProperties`, restricted. -/
structure IotHubProperties where
  routing : Option RoutingProperties
deriving DecidableEq, Repr

/-- `devices.IotHubDescription`, restricted. -/
structure IotHubDescription where
  id : Option String
  properties : Option IotHubProperties
deriving DecidableEq, Repr

/-! ## azurerm_iothub_route -/

/-- Terraform state of one route instance. -/
structure RouteState where
  id : String
  name : String
  iothubName : String
  resourceGroupName : String
  source : String
  condition : String
  enabled : Bool
  endpointNames : List String
deriving DecidableEq, Repr

/-- Configuration the CreateUpdate handler reads via `d.Get`, plus
`d.IsNewResource()`. -/
structure RouteConfig where
  name : String
  resourceGroupName : String
  iothubName : String
  source : String
  condition : String
  endpointNames : List String
  enabled : Bool
  isNewResource : Bool
deriving DecidableEq, Repr

/-- Outcomes of the remote calls made by the route CreateUpdate handler. -/
structure RouteCreateEnv where
  get : GetResult IotHubDescription
  createOrUpdate : OpResult
  wait : OpResult
deriving Repr

/-- The rewrite loop of `resourceIotHubRouteCreateUpdate`: walk the existing
routes, skipping nil-name entries; on a case-insensitive name match return a
conflict if the resource is new, otherwise substitute the new route and
remember that it existed; keep all other entries. -/
def buildRoutes (routeName : String) (isNewResource : Bool) (route : RouteProperties) :
    List RouteProperties → Except Unit (List RouteProperties × Bool)
  | [] => .ok ([], false)
  | existingRoute :: rest =>
    match existingRoute.name with
    | none => buildRoutes routeName isNewResource route rest
    | some n =>
      if eqFold n routeName then
        if isNewResource then
          .error ()
        else
          (buildRoutes routeName isNewResource route rest).map (fun x => (route :: x.1, true))
      else
        (buildRoutes routeName isNewResource route rest).map (fun x => (existingRoute :: x.1, x.2))

/-- `resourceIotHubRouteCreateUpdate`: lock the hub, fetch it (missing parent
is an error), rebuild the `Routes` collection around the new/updated route
(`tf.ImportAsExistsError` when a new resource's name is already taken;
"Unable to find Route" when an update's name is gone), submit the whole hub,
await, then persist `{hubId}/Routes/{name}`.  The Go code dereferences
`iothub.ID` and `iothub.Properties` without nil checks, hence `panics`. -/
def resourceIotHubRouteCreateUpdate (cfg : RouteConfig)
    (env : RouteCreateEnv) (d : RouteState) : Outcome RouteState (List RouteProperties) :=
  match env.get with
  | .notFound => .err (.parentNotFound "IotHub" cfg.iothubName cfg.resourceGroupName) d
  | .failed msg => .err (.retrieveFailed msg) d
  | .ok iothub =>
    match iothub.id with
    | none => .panics
    | some hubId =>
      let resourceId := hubId ++ "/Routes/" ++ cfg.name
      let route : RouteProperties :=
        { name := some cfg.name, source := cfg.source, condition := some cfg.condition,
          endpointNames := some cfg.endpointNames, isEnabled := some cfg.enabled }
      match iothub.properties with
      | none => .panics
      | some hubProps =>
        let routing := hubProps.routing.getD { routes := none }
        let existingRoutes := routing.routes.getD []
        match buildRoutes cfg.name cfg.isNewResource route existingRoutes with
        | .error _ => .err (.importAsExists "azurerm_iothub_route" resourceId) d
        | .ok (kept, alreadyExists) =>
          if cfg.isNewResource then
            let routes := kept ++ [route]
            match env.createOrUpdate with
            | .failed msg => .err (.submitFailed msg) d
            | .ok =>
              match env.wait with
              | .failed msg => .err (.waitFailed msg) d
              | .ok => .ok { d with id := resourceId } routes
          else if alreadyExists then
            match env.createOrUpdate with
            | .failed msg => .err (.submitFailed msg) d
            | .ok =>
              match env.wait with
              | .failed msg => .err (.waitFailed msg) d
              | .ok => .ok { d with id := resourceId } kept
          else
            .err (.routeNotFound cfg.name) d

/-- Outcomes of the remote calls made by the route Read handler. -/
structure RouteReadEnv where
  get : GetResult IotHubDescription
deriving Repr

/-- `resourceIotHubRouteRead`: parse the identifier, fetch the hub — any
fetch failure, a not-found response included, is returned as an error (there
is no `ResponseWasNotFound` branch and the state is never cleared); then set
the name attributes and, when the named route is present, copy its
attributes (the loop has no break, so the last name match wins). -/
def resourceIotHubRouteRead (env : RouteReadEnv) (d : RouteState) :
    Outcome RouteState Unit :=
  match parseAzureResourceID d.id with
  | .error e => .err (.parseFailed e) d
  | .ok parsedIothubRouteId =>
    let resourceGroup := parsedIothubRouteId.resourceGroup
    let iothubName := parsedIothubRouteId.pathGet "IotHubs"
    let routeName := parsedIothubRouteId.pathGet "Routes"
    match env.get with
    | .notFound => .err (.retrieveFailed ("Error loading IotHub " ++ iothubName)) d
    | .failed msg => .err (.retrieveFailed msg) d
    | .ok iothub =>
      let d := { d with name := routeName, iothubName := iothubName,
                        resourceGroupName := resourceGroup }
      match iothub.properties with
      | none => .ok d ()
      | some hubProps =>
        match hubProps.routing with
        | none => .ok d ()
        | some routing =>
          let matchingRoutes := (routing.routes.getD []).filter (fun route =>
            match route.name with
            | some n => eqFold n routeName
            | none => false)
          match matchingRoutes.getLast? with
          | none => .ok d ()
          | some route =>
            .ok { d with source := route.source,
                         condition := route.condition.getD "",
                         enabled := route.isEnabled.getD false,
                         endpointNames := route.endpointNames.getD [] } ()

/-- Outcomes of the remote calls made by the route Delete handler. -/
structure RouteDeleteEnv where
  get : GetResult IotHubDescription
  createOrUpdate : OpResult
  wait : OpResult
deriving Repr

/-- `resourceIotHubRouteDelete`: parse the identifier, fetch the hub (a
missing parent is an error); when the routing collection is nil, succeed
without submitting; otherwise keep every route whose non-nil name does not
match case-insensitively, submit the whole hub and await. -/
def resourceIotHubRouteDelete (env : RouteDeleteEnv) (d : RouteState) :
    Outcome RouteState (Option (List RouteProperties)) :=
  match parseAzureResourceID d.id with
  | .error e => .err (.parseFailed e) d
  | .ok parsedIothubRouteId =>
    let resourceGroup := parsedIothubRouteId.resourceGroup
    let iothubName := parsedIothubRouteId.pathGet "IotHubs"
    let routeName := parsedIothubRouteId.pathGet "Routes"
    match env.get with
    | .notFound => .err (.parentNotFound "IotHub" iothubName resourceGroup) d
    | .failed msg => .err (.retrieveFailed msg) d
    | .ok iothub =>
      match iothub.properties with
      | none => .ok d none
      | some hubProps =>
        match hubProps.routing with
        | none => .ok d none
        | some routing =>
          match routing.routes with
          | none => .ok d none
          | some routes =>
            let updatedRoutes := routes.filter (fun route =>
              match route.name with
              | some n => !eqFold n routeName
              | none => false)
            match env.createOrUpdate with
            | .failed msg => .err (.submitFailed msg) d
            | .ok =>
              match env.wait with
              | .failed msg => .err (.waitFailed msg) d
              | .ok => .ok d (some updatedRoutes)

/-! ## Subnet model (Azure SDK `network` package, as used here) -/

/-- `network.SubResource` (the NAT gateway reference on a subnet). -/
structure SubResource where
  id : Option String
deriving DecidableEq, Repr

/-- `network.SubnetPropertiesFormat`, restricted. -/
structure SubnetPropertiesFormat where
  natGateway : Option SubResource
deriving DecidableEq, Repr

/-- `network.Subnet`, restricted. -/
structure Subnet where
  id : Option String
  properties : Option SubnetPropertiesFormat
deriving DecidableEq, Repr

/-- The fields of a parsed subnet identifier. -/
structure SubnetIdFields where
  subscriptionID : String
  resourceGroup : String
  virtualNetworkName : String
  name : String
deriving DecidableEq, Repr

/-- Modelled from the spec: `parse.SubnetID` (in
`internal/services/network/parse`, not under the provided sources) — the
typed decode of a subnet identifier, erroring when the expected
`virtualNetworks`/`subnets` segments are absent. -/
def parseSubnetID (input : String) : Except String SubnetIdFields :=
  match parseAzureResourceID input with
  | .error e => .error e
  | .ok rid =>
    let vn := rid.pathGet "virtualNetworks"
    let sn := rid.pathGet "subnets"
    if vn = "" ∨ sn = "" then
      .error ("ID was missing the virtualNetworks or subnets element: " ++ input)
    else
      .ok { subscriptionID := rid.subscriptionID, resourceGroup := rid.resourceGroup,
            virtualNetworkName := vn, name := sn }

/-- Modelled from the spec: `parse.NatGatewayID` (same package, not under the
provided sources) — typed decode of a NAT gateway identifier. -/
def parseNatGatewayID (input : String) : Except String String :=
  match parseAzureResourceID input with
  | .error e => .error e
  | .ok rid =>
    let n := rid.pathGet "natGateways"
    if n = "" then .error ("ID was missing the natGateways element: " ++ input)
    else .ok n

/-! ## azurerm_subnet_nat_gateway_association -/

/-- Terraform state of one subnet/NAT-gateway association instance. -/
structure SubnetNatState where
  id : String
  subnetId : String
  natGatewayId : String
deriving DecidableEq, Repr

/-- Outcomes of the remote calls made by the association Create handler, in
call order (the second Get re-reads the subnet to take its ID). -/
structure SubnetNatCreateEnv where
  get : GetResult Subnet
  createOrUpdate : OpResult
  wait : OpResult
  getAfter : GetResult Subnet
deriving Repr

/-- The tail of `resourceSubnetNatGatewayAssociationCreate`: submit the
mutated subnet, await completion, re-fetch the subnet and persist `*read.ID`
(a nil ID panics). -/
def subnetNatGatewayAssociationCreateSubmit (request : Subnet)
    (env : SubnetNatCreateEnv) (d : SubnetNatState) : Outcome SubnetNatState Subnet :=
  match env.createOrUpdate with
  | .failed msg => .err (.submitFailed msg) d
  | .ok =>
    match env.wait with
    | .failed msg => .err (.waitFailed msg) d
    | .ok =>
      match env.getAfter with
      | .notFound => .err (.retrieveFailed "Error retrieving Subnet") d
      | .failed msg => .err (.retrieveFailed msg) d
      | .ok read =>
        match read.id with
        | none => .panics
        | some readId => .ok { d with id := readId } request

/-- `resourceSubnetNatGatewayAssociationCreate`: parse both identifiers, lock
gateway/virtual-network/subnet, fetch the subnet (missing parent is an
error); inside a non-nil properties block, a pre-existing gateway reference
with non-nil IDs is `tf.ImportAsExistsError`, otherwise the reference is
overwritten; then submit, await, re-fetch and persist the subnet ID. -/
def resourceSubnetNatGatewayAssociationCreate (subnetId natGatewayId : String)
    (env : SubnetNatCreateEnv) (d : SubnetNatState) : Outcome SubnetNatState Subnet :=
  match parseSubnetID subnetId with
  | .error e => .err (.parseFailed e) d
  | .ok parsedSubnetId =>
    let subnetName := parsedSubnetId.name
    let virtualNetworkName := parsedSubnetId.virtualNetworkName
    let resourceGroup := parsedSubnetId.resourceGroup
    match parseNatGatewayID natGatewayId with
    | .error e => .err (.parseFailed e) d
    | .ok _gatewayName =>
      match env.get with
      | .notFound => .err (.parentNotFound "Subnet" subnetName
          (virtualNetworkName ++ "/" ++ resourceGroup)) d
      | .failed msg => .err (.retrieveFailed msg) d
      | .ok subnet =>
        match subnet.properties with
        | some props =>
          let conflict :=
            match props.natGateway with
            | some gateway => gateway.id.isSome && subnet.id.isSome
            | none => false
          if conflict then
            .err (.importAsExists "azurerm_subnet_nat_gateway_association"
              (subnet.id.getD "")) d
          else
            let props' := { props with natGateway := some { id := some natGatewayId } }
            let request := { subnet with properties := some props' }
            subnetNatGatewayAssociationCreateSubmit request env d
        | none =>
          -- `if props := subnet.SubnetPropertiesFormat; props != nil { ... }`:
          -- with nil properties the subnet is submitted unmodified
          subnetNatGatewayAssociationCreateSubmit subnet env d

/-- Outcomes of the remote calls made by the association Read handler. -/
structure SubnetNatReadEnv where
  get : GetResult Subnet
deriving Repr

/-- `resourceSubnetNatGatewayAssociationRead`: parse the identifier, fetch
the subnet; a not-found parent or an absent NAT gateway reference clears the
resource ID and succeeds; nil properties is an error. -/
def resourceSubnetNatGatewayAssociationRead (env : SubnetNatReadEnv)
    (d : SubnetNatState) : Outcome SubnetNatState Unit :=
  match parseSubnetID d.id with
  | .error e => .err (.parseFailed e) d
  | .ok id =>
    match env.get with
    | .notFound => .ok { d with id := "" } ()
    | .failed msg => .err (.retrieveFailed msg) d
    | .ok subnet =>
      match subnet.properties with
      | none => .err (.propsNil id.name) d
      | some props =>
        match props.natGateway with
        | none => .ok { d with id := "" } ()
        | some natGateway =>
          .ok { d with subnetId := subnet.id.getD "",
                       natGatewayId := natGateway.id.getD "" } ()

/-- Outcomes of the remote calls made by the association Delete handler, in
call order (the subnet is fetched twice: before and after taking locks). -/
structure SubnetNatDeleteEnv where
  get : GetResult Subnet
  getAfterLocks : GetResult Subnet
  createOrUpdate : OpResult
  wait : OpResult
deriving Repr

/-- `resourceSubnetNatGatewayAssociationDelete`: parse the identifier and
fetch the subnet; a not-found parent, or an absent/ID-less NAT gateway
reference, succeeds without submitting (idempotent delete); otherwise take
locks, re-fetch (again tolerating not-found), null out the gateway reference
(nil properties on the re-read panics) and submit. -/
def resourceSubnetNatGatewayAssociationDelete (env : SubnetNatDeleteEnv)
    (d : SubnetNatState) : Outcome SubnetNatState (Option Subnet) :=
  match parseSubnetID d.id with
  | .error e => .err (.parseFailed e) d
  | .ok id =>
    match env.get with
    | .notFound => .ok d none
    | .failed msg => .err (.retrieveFailed msg) d
    | .ok subnet =>
      match subnet.properties with
      | none => .err (.propsNil id.name) d
      | some props =>
        match props.natGateway with
        | none => .ok d none
        | some natGateway =>
          match natGateway.id with
          | none => .ok d none
          | some gatewayId =>
            match parseAzureResourceID gatewayId with
            | .error e => .err (.parseFailed e) d
            | .ok _parsedGatewayId =>
              match env.getAfterLocks with
              | .notFound => .ok d none
              | .failed msg => .err (.retrieveFailed msg) d
              | .ok subnet2 =>
                match subnet2.properties with
                | none => .panics
                | some props2 =>
                  let props2' := { props2 with natGateway := none }
                  let request := { subnet2 with properties := some props2' }
                  match env.createOrUpdate with
                  | .failed msg => .err (.submitFailed msg) d
                  | .ok =>
                    match env.wait with
                    | .failed msg => .err (.waitFailed msg) d
                    | .ok => .ok d (some request)

/-! ## azurerm_resource_group -/

/-- `resources.Group`, restricted to the fields the handler inspects. -/
structure Group where
  id : Option String
  name : Option String
  location : Option String
deriving DecidableEq, Repr

/-- Terraform state of one resource-group instance. -/
structure GroupState where
  id : String
  name : String
  location : String
deriving DecidableEq, Repr

/-- Outcomes of the remote calls made by `resourceResourceGroupCreateUpdate`,
in call order: existence check (run only for new resources), synchronous
CreateOrUpdate, and the final Get whose ID is persisted. -/
structure GroupCreateEnv where
  getExisting : GetResult Group
  createOrUpdate : OpResult
  getAfter : GetResult Group
deriving Repr

/-- The tail of `resourceResourceGroupCreateUpdate` after the existence
check: CreateOrUpdate, re-Get (any failure aborts) and persist `*resp.ID`
(nil panics). -/
def resourceGroupCreateUpdateSubmit (name : String) (env : GroupCreateEnv)
    (d : GroupState) : Outcome GroupState Unit :=
  match env.createOrUpdate with
  | .failed msg => .err (.submitFailed msg) d
  | .ok =>
    match env.getAfter with
    | .notFound => .err (.retrieveFailed ("Error retrieving Resource Group " ++ name)) d
    | .failed msg => .err (.retrieveFailed msg) d
    | .ok resp =>
      match resp.id with
      | none => .panics
      | some respId => .ok { d with id := respId } ()

/-- `resourceResourceGroupCreateUpdate`: for a new resource, Get the group
first — a non-not-found failure aborts, and a response carrying a non-nil,
non-empty ID is `tf.ImportAsExistsError`; then CreateOrUpdate, re-Get
(any failure aborts) and persist `*resp.ID` (nil panics). -/
def resourceResourceGroupCreateUpdate (name _location : String) (isNewResource : Bool)
    (env : GroupCreateEnv) (d : GroupState) : Outcome GroupState Unit :=
  if isNewResource then
    match env.getExisting with
    | .failed msg => .err (.checkExistingFailed msg) d
    | .notFound => resourceGroupCreateUpdateSubmit name env d  -- zero-value `existing` has a nil ID
    | .ok existing =>
      match existing.id with
      | some existingId =>
        if existingId ≠ "" then
          .err (.importAsExists "azurerm_resource_group" existingId) d
        else
          resourceGroupCreateUpdateSubmit name env d
      | none => resourceGroupCreateUpdateSubmit name env d
  else
    resourceGroupCreateUpdateSubmit name env d

/-! ## azurerm_virtual_machine_scale_set_extension -/

/-- `compute.VirtualMachineScaleSetExtension`, restricted to the fields the
Create handler inspects on the existence check. -/
structure VMSSExtension where
  id : Option String
deriving DecidableEq, Repr

/-- Terraform state of one scale-set-extension instance. -/
structure VMSSExtensionState where
  id : String
deriving DecidableEq, Repr

/-- Outcomes of the remote calls made by
`resourceVirtualMachineScaleSetExtensionCreate`, in call order. -/
structure VMSSExtensionCreateEnv where
  get : GetResult VMSSExtension
  createOrUpdate : OpResult
  wait : OpResult
  getAfter : GetResult VMSSExtension
deriving Repr

/-- `resourceVirtualMachineScaleSetExtensionCreate`: Get the extension — a
non-not-found failure aborts, and any found response is
`tf.ImportAsExistsError` carrying `*resp.ID` (nil panics); then
CreateOrUpdate, await, re-Get (any failure aborts) and persist `*resp.ID`
(nil panics).  The marshalling of settings into the request body carries no
logic the claims touch and is elided. -/
def resourceVirtualMachineScaleSetExtensionCreate
    (env : VMSSExtensionCreateEnv) (d : VMSSExtensionState) :
    Outcome VMSSExtensionState Unit :=
  match env.get with
  | .failed msg => .err (.checkExistingFailed msg) d
  | .ok resp =>
    match resp.id with
    | none => .panics
    | some respId =>
      .err (.importAsExists "azurerm_virtual_machine_scale_set_extension" respId) d
  | .notFound =>
    match env.createOrUpdate with
    | .failed msg => .err (.submitFailed msg) d
    | .ok =>
      match env.wait with
      | .failed msg => .err (.waitFailed msg) d
      | .ok =>
        match env.getAfter with
        | .notFound => .err (.retrieveFailed "Error retrieving Extension") d
        | .failed msg => .err (.retrieveFailed msg) d
        | .ok resp =>
          match resp.id with
          | none => .panics
          | some respId => .ok { d with id := respId } ()

/-! ## azurerm_backup_container_storage_account -/

/-- `backup.ProtectionContainerResource`, restricted. -/
structure ProtectionContainerResource where
  id : Option String
deriving DecidableEq, Repr

/-- Terraform state of one protection-container instance. -/
structure BackupContainerState where
  id : String
deriving DecidableEq, Repr

/-- Modelled from the spec: `handleAzureSdkForGoBug2824` (in the
`recoveryservices` package helpers, not under the provided sources) — a
stability normalisation of the opaque identifier, lower-casing the
`/Subscriptions/` path key emitted by the SDK so the persisted ID format
stays backward compatible. -/
def handleAzureSdkForGoBug2824 (id : String) : String :=
  if id.data.take 15 = "/Subscriptions/".data then
    "/subscriptions/" ++ List.asString (id.data.drop 15)
  else
    id

/-- Outcomes of the remote calls made by
`resourceBackupProtectionContainerStorageAccountCreate`, in call order:
existence check (for new resources), Register, the Location header of the
Register response, the operation poll, and the final Get. -/
structure BackupCreateEnv where
  getExisting : GetResult ProtectionContainerResource
  register : OpResult
  locationPath : Option String
  waitOp : OpResult
  getAfter : GetResult ProtectionContainerResource
deriving Repr

/-- The tail of `resourceBackupProtectionContainerStorageAccountCreate`
after the existence check: Register, read the operation URL off the Location
header (missing aborts), parse it, await the operation, re-Get and persist
the normalised `*resp.ID` (nil panics). -/
def backupContainerCreateSubmit (env : BackupCreateEnv) (d : BackupContainerState) :
    Outcome BackupContainerState Unit :=
  match env.register with
  | .failed msg => .err (.submitFailed msg) d
  | .ok =>
    match env.locationPath with
    | none => .err (.locationHeaderMissing "protection container registration") d
    | some locationPath =>
      -- opResourceID := handleAzureSdkForGoBug2824(locationURL.Path); its
      -- `operationResults` path entry is the operation ID the poll consumes
      match parseAzureResourceID (handleAzureSdkForGoBug2824 locationPath) with
      | .error e => .err (.parseFailed e) d
      | .ok _parsedLocation =>
        match env.waitOp with
        | .failed msg => .err (.waitFailed msg) d
        | .ok =>
          match env.getAfter with
          | .notFound => .err (.retrieveFailed "Error retrieving protection container") d
          | .failed msg => .err (.retrieveFailed msg) d
          | .ok resp =>
            match resp.id with
            | none => .panics
            | some respId => .ok { d with id := handleAzureSdkForGoBug2824 respId } ()

/-- `resourceBackupProtectionContainerStorageAccountCreate`: parse the
storage-account ID (a missing `storageAccounts` segment aborts), run the
existence check for new resources (a found, non-empty ID is
`tf.ImportAsExistsError`), Register, read the operation URL from the
Location header (missing aborts), parse it, await the operation, re-Get and
persist the normalised `*resp.ID` (nil panics). -/
def resourceBackupProtectionContainerStorageAccountCreate
    (_resGroup _vaultName storageAccountID : String) (isNewResource : Bool)
    (env : BackupCreateEnv) (d : BackupContainerState) :
    Outcome BackupContainerState Unit :=
  match parseAzureResourceID storageAccountID with
  | .error e => .err (.parseFailed e) d
  | .ok parsedStorageAccountID =>
    match (parsedStorageAccountID.path.find? (fun p => p.1 = "storageAccounts")).map Prod.snd with
    | none => .err (.missingPathKey "storageAccounts") d
    | some accountName =>
      let _containerName :=
        "StorageContainer;storage;" ++ parsedStorageAccountID.resourceGroup ++ ";" ++ accountName
      if isNewResource then
        match env.getExisting with
        | .failed msg => .err (.checkExistingFailed msg) d
        | .notFound => backupContainerCreateSubmit env d
        | .ok existing =>
          match existing.id with
          | some existingId =>
            if existingId ≠ "" then
              .err (.importAsExists "azurerm_backup_protection_container_storage"
                (handleAzureSdkForGoBug2824 existingId)) d
            else
              backupContainerCreateSubmit env d
          | none => backupContainerCreateSubmit env d
      else
        backupContainerCreateSubmit env d

/-! ## Per-operation timeouts

The `internal/timeouts` package is not among the source files; the
per-operation-kind selection it performs is modelled from the spec, and the
helper each lifecycle method invokes is read off that method's
`timeouts.ForX(...)` call in the source. -/

/-- The four lifecycle operation kinds. -/
inductive OpKind where
  | create
  | read
  | update
  | delete
deriving DecidableEq, Repr

/-- The deadline helpers of the `timeouts` package. -/
inductive TimeoutHelper where
  | forCreate
  | forRead
  | forUpdate
  | forDelete
  | forCreateUpdate
deriving DecidableEq, Repr

/-- A resource's configured timeouts (minutes), from its `Timeouts` block. -/
structure ResourceTimeouts where
  create : Nat
  read : Nat
  update : Nat
  delete : Nat
deriving DecidableEq, Repr

/-- Modelled from the spec: the deadline each `timeouts.ForX` helper derives
— every operation is bounded by the independently configured timeout of its
own operation kind, `ForCreateUpdate` selecting create for a new resource
and update otherwise. -/
def timeoutChosen (t : ResourceTimeouts) (isNewResource : Bool) :
    TimeoutHelper → Nat
  | .forCreate => t.create
  | .forRead => t.read
  | .forUpdate => t.update
  | .forDelete => t.delete
  | .forCreateUpdate => if isNewResource then t.create else t.update

/-- The `Timeouts` block of
`resourceNetworkInterfaceBackendAddressPoolAssociation`. -/
def nicAssociationTimeouts : ResourceTimeouts :=
  { create := 30, read := 5, update := 30, delete := 30 }

/-- The `timeouts.ForX` helper invoked by each lifecycle method of
`resourceNetworkInterfaceBackendAddressPoolAssociation` (`none` where the
resource registers no handler for the kind). -/
def nicAssociationTimeoutHelper : OpKind → Option TimeoutHelper
  | .create => some .forCreate
  | .read => some .forRead
  | .update => none
  | .delete => some .forDelete

/-- The `Timeouts` block of `resourceIotHubRoute`. -/
def iotHubRouteTimeouts : ResourceTimeouts :=
  { create := 30, read := 5, update := 30, delete := 30 }

/-- The `timeouts.ForX` helper invoked by each lifecycle method of
`resourceIotHubRoute` (Create and Update share one handler calling
`timeouts.ForCreateUpdate`). -/
def iotHubRouteTimeoutHelper : OpKind → Option TimeoutHelper
  | .create => some .forCreateUpdate
  | .read => some .forRead
  | .update => some .forCreateUpdate
  | .delete => some .forDelete

/-- The `Timeouts` block of
`resourceBackupProtectionContainerStorageAccount`. -/
def backupContainerTimeouts : ResourceTimeouts :=
  { create := 30, read := 5, update := 30, delete := 30 }

/-- The `timeouts.ForX` helper invoked by each lifecycle method of
`resourceBackupProtectionContainerStorageAccount`: its Create handler calls
`timeouts.ForRead` (source line `ctx, cancel := timeouts.ForRead(...)` inside
`resourceBackupProtectionContainerStorageAccountCreate`). -/
def backupContainerTimeoutHelper : OpKind → Option TimeoutHelper
  | .create => some .forRead
  | .read => some .forRead
  | .update => none
  | .delete => some .forDelete

/-! ## Lemmas about the collection-rewrite loops -/

/-- When no pre-existing pool carries the new pool's ID, the Create loop
keeps exactly the entries with a non-nil ID, in order. -/
theorem collectPools_of_no_match {target : String} {l : List BackendAddressPool}
    (h : ∀ q ∈ l, q.id ≠ some target) :
    collectPools target l = .ok (l.filter (fun q => q.id.isSome)) := by
  induction l with
  | nil => rfl
  | cons q rest ih =>
    have hq := h q (List.mem_cons_self q rest)
    have hrest : ∀ q ∈ rest, q.id ≠ some target :=
      fun x hx => h x (List.mem_cons_of_mem q hx)
    cases hid : q.id with
    | none =>
      simp [collectPools, hid, ih hrest, List.filter_cons]
    | some i =>
      have : i ≠ target := fun hi => hq (hid.trans (by rw [hi]))
      simp [collectPools, hid, this, ih hrest, List.filter_cons, Except.map]

/-- When some pre-existing pool carries the new pool's ID, the Create loop
reports the conflict. -/
theorem collectPools_of_match {target : String} {l : List BackendAddressPool}
    {q : BackendAddressPool} (hmem : q ∈ l) (hid : q.id = some target) :
    collectPools target l = .error () := by
  induction l with
  | nil => exact absurd hmem (List.not_mem_nil q)
  | cons p rest ih =>
    rcases List.mem_cons.mp hmem with h | h
    · subst h
      simp [collectPools, hid]
    · cases hp : p.id with
      | none => simpa [collectPools, hp] using ih h
      | some j =>
        by_cases hj : j = target
        · simp [collectPools, hp, hj]
        · simp [collectPools, hp, hj, ih h, Except.map]

/-- Every pool kept by the Create loop has a non-nil ID. -/
theorem collectPools_mem_isSome {target : String} {l kept : List BackendAddressPool}
    (h : collectPools target l = .ok kept) :
    ∀ q ∈ kept, q.id.isSome := by
  induction l generalizing kept with
  | nil =>
    simp only [collectPools, Except.ok.injEq] at h
    subst h
    intro q hq
    exact absurd hq (List.not_mem_nil q)
  | cons p rest ih =>
    cases hp : p.id with
    | none =>
      simp only [collectPools, hp] at h
      exact ih h
    | some i =>
      simp only [collectPools, hp] at h
      by_cases hi : i = target
      · rw [if_pos hi] at h
        exact absurd h (by simp)
      · rw [if_neg hi] at h
        cases hrec : collectPools target rest with
        | error e => rw [hrec] at h; exact absurd h (by simp [Except.map])
        | ok kept' =>
          rw [hrec] at h
          simp only [Except.map, Except.ok.injEq] at h
          subst h
          intro q hq
          rcases List.mem_cons.mp hq with h | h
          · subst h; simp [hp]
          · exact ih hrec q h

/-- When no pre-existing route name matches (case-insensitively), the
CreateUpdate loop keeps exactly the entries with a non-nil name, in order,
and reports that the route did not already exist. -/
theorem buildRoutes_of_no_match {routeName : String} {isNewResource : Bool}
    {route : RouteProperties} {l : List RouteProperties}
    (h : ∀ r ∈ l, ∀ n, r.name = some n → eqFold n routeName = false) :
    buildRoutes routeName isNewResource route l =
      .ok (l.filter (fun r => r.name.isSome), false) := by
  induction l with
  | nil => rfl
  | cons r rest ih =>
    have hrest : ∀ x ∈ rest, ∀ n, x.name = some n → eqFold n routeName = false :=
      fun x hx => h x (List.mem_cons_of_mem r hx)
    cases hn : r.name with
    | none =>
      simp [buildRoutes, hn, ih hrest, List.filter_cons]
    | some n =>
      have := h r (List.mem_cons_self r rest) n hn
      simp [buildRoutes, hn, this, ih hrest, List.filter_cons, Except.map]

/-- When some pre-existing route name matches (case-insensitively) and the
resource is new, the CreateUpdate loop reports the conflict. -/
theorem buildRoutes_of_match {routeName : String} {route : RouteProperties}
    {l : List RouteProperties} {r : RouteProperties} {n : String}
    (hmem : r ∈ l) (hn : r.name = some n) (hf : eqFold n routeName = true) :
    buildRoutes routeName true route l = .error () := by
  induction l with
  | nil => exact absurd hmem (List.not_mem_nil r)
  | cons p rest ih =>
    rcases List.mem_cons.mp hmem with h | h
    · subst h
      simp [buildRoutes, hn, hf]
    · cases hp : p.name with
      | none => simpa [buildRoutes, hp] using ih h
      | some m =>
        by_cases hm : eqFold m routeName = true
        · simp [buildRoutes, hp, hm]
        · simp [buildRoutes, hp, hm, ih h, Except.map]

/-! ## Claims -/

/-- **C9** (the claim is the intent; the code diverges): every lifecycle
method is required to derive its deadline from the timeout configured for
its own operation kind, and the association resource's methods do so; but
the Create handler of `azurerm_backup_container_storage_account` invokes the
read-timeout helper `timeouts.ForRead`, so it runs under the 5-minute read
timeout although its own `Timeouts` block configures a 30-minute create
timeout. -/
theorem claim9_backup_create_runs_under_read_timeout :
    backupContainerTimeoutHelper .create = some .forRead ∧
    timeoutChosen backupContainerTimeouts true .forRead = 5 ∧
    backupContainerTimeouts.create = 30 ∧
    timeoutChosen backupContainerTimeouts true .forRead ≠
      timeoutChosen backupContainerTimeouts true .forCreate ∧
    nicAssociationTimeoutHelper .create = some .forCreate ∧
    nicAssociationTimeoutHelper .read = some .forRead ∧
    nicAssociationTimeoutHelper .delete = some .forDelete ∧
    iotHubRouteTimeoutHelper .read = some .forRead ∧
    iotHubRouteTimeoutHelper .delete = some .forDelete ∧
    timeoutChosen iotHubRouteTimeouts true .forCreateUpdate = iotHubRouteTimeouts.create ∧
    timeoutChosen iotHubRouteTimeouts false .forCreateUpdate = iotHubRouteTimeouts.update := by
  refine ⟨rfl, rfl, rfl, by decide, rfl, rfl, rfl, rfl, rfl, rfl, rfl⟩

/-- **C6**: when the parent fetch reports not-found, each embedded Create
handler fails with the parent-not-found error naming the parent — never with
a Conflict error and never with silent success. -/
theorem claim6_create_fails_on_missing_parent
    (nicId ipName poolId : String) (envN : NicCreateEnv) (dN : AssocState)
    (rid : ResourceID) (hparse : parseAzureResourceID nicId = .ok rid)
    (hget : envN.get = .notFound)
    (subnetId natGatewayId : String) (envS : SubnetNatCreateEnv) (dS : SubnetNatState)
    (sid : SubnetIdFields) (hsub : parseSubnetID subnetId = .ok sid)
    (gname : String) (hgw : parseNatGatewayID natGatewayId = .ok gname)
    (hgetS : envS.get = .notFound)
    (cfg : RouteConfig) (envR : RouteCreateEnv) (dR : RouteState)
    (hgetR : envR.get = .notFound) :
    resourceNetworkInterfaceBackendAddressPoolAssociationCreate nicId ipName poolId envN dN =
      .err (.parentNotFound "Network Interface" (rid.pathGet "networkInterfaces")
        rid.resourceGroup) dN ∧
    resourceSubnetNatGatewayAssociationCreate subnetId natGatewayId envS dS =
      .err (.parentNotFound "Subnet" sid.name
        (sid.virtualNetworkName ++ "/" ++ sid.resourceGroup)) dS ∧
    resourceIotHubRouteCreateUpdate cfg envR dR =
      .err (.parentNotFound "IotHub" cfg.iothubName cfg.resourceGroupName) dR := by
  refine ⟨?_, ?_, ?_⟩
  · rw [resourceNetworkInterfaceBackendAddressPoolAssociationCreate, hparse, hget]
  · rw [resourceSubnetNatGatewayAssociationCreate, hsub, hgw, hgetS]
  · rw [resourceIotHubRouteCreateUpdate, hgetR]

/-- Witness for `claim6_create_fails_on_missing_parent` at concrete inputs. -/
theorem claim6_create_fails_on_missing_parent_witness :
    resourceNetworkInterfaceBackendAddressPoolAssociationCreate
      "/subscriptions/s/resourceGroups/rg/providers/Microsoft.Network/networkInterfaces/nic1"
      "cfg1" "pool1" ⟨.notFound, .ok, .ok⟩ ⟨"", "", "", ""⟩ =
      .err (.parentNotFound "Network Interface" "nic1" "rg") ⟨"", "", "", ""⟩ ∧
    resourceSubnetNatGatewayAssociationCreate
      "/subscriptions/s/resourceGroups/rg/providers/Microsoft.Network/virtualNetworks/vn1/subnets/sn1"
      "/subscriptions/s/resourceGroups/rg/providers/Microsoft.Network/natGateways/gw1"
      ⟨.notFound, .ok, .ok, .notFound⟩ ⟨"", "", ""⟩ =
      .err (.parentNotFound "Subnet" "sn1" "vn1/rg") ⟨"", "", ""⟩ ∧
    resourceIotHubRouteCreateUpdate
      ⟨"r1", "rg", "hub1", "DeviceMessages", "true", ["e1"], true, true⟩
      ⟨.notFound, .ok, .ok⟩ ⟨"", "", "", "", "", "", false, []⟩ =
      .err (.parentNotFound "IotHub" "hub1" "rg") ⟨"", "", "", "", "", "", false, []⟩ := by
  have h := claim6_create_fails_on_missing_parent
    "/subscriptions/s/resourceGroups/rg/providers/Microsoft.Network/networkInterfaces/nic1"
    "cfg1" "pool1" ⟨.notFound, .ok, .ok⟩ ⟨"", "", "", ""⟩
    { subscriptionID := "s", resourceGroup := "rg", provider := "Microsoft.Network",
      path := [("networkInterfaces", "nic1")] } rfl rfl
    "/subscriptions/s/resourceGroups/rg/providers/Microsoft.Network/virtualNetworks/vn1/subnets/sn1"
    "/subscriptions/s/resourceGroups/rg/providers/Microsoft.Network/natGateways/gw1"
    ⟨.notFound, .ok, .ok, .notFound⟩ ⟨"", "", ""⟩
    ⟨"s", "rg", "vn1", "sn1"⟩ rfl "gw1" rfl rfl
    ⟨"r1", "rg", "hub1", "DeviceMessages", "true", ["e1"], true, true⟩
    ⟨.notFound, .ok, .ok⟩ ⟨"", "", "", "", "", "", false, []⟩ rfl
  exact h

/-- **C4**: when the existence check of a Create finds the object already
present (the association already in the pool collection; a resource group /
scale-set extension whose GET succeeds with an ID) and import was not
requested, the handler returns `tf.ImportAsExistsError` carrying the
computed identifier and submits nothing. -/
theorem claim4_create_conflicts_on_existing
    (nicId ipName poolId : String) (envN : NicCreateEnv) (dN : AssocState)
    (rid : ResourceID) (hparse : parseAzureResourceID nicId = .ok rid)
    (read : Interface) (hget : envN.get = .ok read)
    (props : InterfacePropertiesFormat) (hprops : read.properties = some props)
    (cfgs : List InterfaceIPConfiguration) (hcfgs : props.ipConfigurations = some cfgs)
    (config : InterfaceIPConfiguration)
    (hfind : FindNetworkInterfaceIPConfiguration (some cfgs) ipName = some config)
    (p : InterfaceIPConfigurationPropertiesFormat) (hp : config.properties = some p)
    (q : BackendAddressPool) (hmem : q ∈ p.loadBalancerBackendAddressPools.getD [])
    (hqid : q.id = some poolId)
    (name loc : String) (envG : GroupCreateEnv) (dG : GroupState)
    (g : Group) (hgetG : envG.getExisting = .ok g)
    (s : String) (hgid : g.id = some s) (hs : s ≠ "")
    (envV : VMSSExtensionCreateEnv) (dV : VMSSExtensionState)
    (ext : VMSSExtension) (hgetV : envV.get = .ok ext)
    (t : String) (hext : ext.id = some t) :
    resourceNetworkInterfaceBackendAddressPoolAssociationCreate nicId ipName poolId envN dN =
      .err (.importAsExists "azurerm_network_interface_backend_address_pool_association"
        (encodeAssociationId nicId ipName poolId)) dN ∧
    resourceResourceGroupCreateUpdate name loc true envG dG =
      .err (.importAsExists "azurerm_resource_group" s) dG ∧
    resourceVirtualMachineScaleSetExtensionCreate envV dV =
      .err (.importAsExists "azurerm_virtual_machine_scale_set_extension" t) dV := by
  refine ⟨?_, ?_, ?_⟩
  · simp only [resourceNetworkInterfaceBackendAddressPoolAssociationCreate, hparse, hget,
      hprops, hcfgs, hfind, hp, collectPools_of_match hmem hqid]
  · simp [resourceResourceGroupCreateUpdate, hgetG, hgid, hs]
  · simp [resourceVirtualMachineScaleSetExtensionCreate, hgetV, hext]

/-- A concrete IP-configuration properties block already containing `pool1`,
used by witnesses. -/
def witnessPoolProps : InterfaceIPConfigurationPropertiesFormat :=
  { loadBalancerBackendAddressPools := some [ { id := some "pool1" } ] }

/-- A concrete IP configuration named `cfg1` carrying `witnessPoolProps`,
used by witnesses. -/
def witnessConflictConfig : InterfaceIPConfiguration :=
  { name := some "cfg1", properties := some witnessPoolProps }

/-- A concrete parent interface whose configuration `cfg1` already contains
the pool `pool1`, used by witnesses. -/
def witnessConflictInterface : Interface :=
  { id := some "nicid",
    properties := some { ipConfigurations := some [witnessConflictConfig] } }

/-- The concrete network-interface identifier used by witnesses. -/
def witnessNicId : String :=
  "/subscriptions/s/resourceGroups/rg/providers/Microsoft.Network/networkInterfaces/nic1"

/-- Witness for `claim4_create_conflicts_on_existing` at concrete inputs. -/
theorem claim4_create_conflicts_on_existing_witness :
    resourceNetworkInterfaceBackendAddressPoolAssociationCreate
      witnessNicId "cfg1" "pool1"
      ⟨.ok witnessConflictInterface, .ok, .ok⟩ ⟨"", "", "", ""⟩ =
      .err (.importAsExists "azurerm_network_interface_backend_address_pool_association"
        (encodeAssociationId witnessNicId "cfg1" "pool1")) ⟨"", "", "", ""⟩ ∧
    resourceResourceGroupCreateUpdate "group1" "westeurope" true
      ⟨.ok { id := some "gid", name := some "group1", location := some "westeurope" }, .ok,
        .notFound⟩ ⟨"", "", ""⟩ =
      .err (.importAsExists "azurerm_resource_group" "gid") ⟨"", "", ""⟩ ∧
    resourceVirtualMachineScaleSetExtensionCreate
      ⟨.ok { id := some "extid" }, .ok, .ok, .notFound⟩ ⟨""⟩ =
      .err (.importAsExists "azurerm_virtual_machine_scale_set_extension" "extid") ⟨""⟩ := by
  exact claim4_create_conflicts_on_existing
    witnessNicId "cfg1" "pool1"
    ⟨.ok witnessConflictInterface, .ok, .ok⟩ ⟨"", "", "", ""⟩
    { subscriptionID := "s", resourceGroup := "rg", provider := "Microsoft.Network",
      path := [("networkInterfaces", "nic1")] } rfl
    witnessConflictInterface rfl
    { ipConfigurations := some [witnessConflictConfig] } rfl
    [witnessConflictConfig] rfl
    witnessConflictConfig (by decide)
    witnessPoolProps rfl
    { id := some "pool1" } (by decide) rfl
    "group1" "westeurope"
    ⟨.ok { id := some "gid", name := some "group1", location := some "westeurope" }, .ok,
      .notFound⟩ ⟨"", "", ""⟩
    _ rfl "gid" rfl (by decide)
    ⟨.ok { id := some "extid" }, .ok, .ok, .notFound⟩ ⟨""⟩
    _ rfl "extid" rfl

/-- The concrete IoT Hub route identifier used by witnesses. -/
def witnessRouteId : String :=
  "/subscriptions/s/resourceGroups/rg/providers/Microsoft.Devices/IotHubs/hub1/Routes/route1"

/-- A concrete route state holding `witnessRouteId`. -/
def witnessRouteState : RouteState :=
  ⟨witnessRouteId, "", "", "", "", "", false, []⟩

/-- **C1** counterexample: the Read of `azurerm_iothub_route`, given a
not-found response for the parent IoT Hub, returns an error and leaves the
resource ID set — it neither clears the local state nor returns success, so
Read does return a Not-Found failure to the host for this resource. -/
theorem claim1_counterexample :
    resourceIotHubRouteRead ⟨.notFound⟩ witnessRouteState =
      .err (.retrieveFailed "Error loading IotHub hub1") witnessRouteState ∧
    witnessRouteState.id ≠ "" := by
  exact ⟨rfl, by decide⟩

/-- **C1** as amended: for the association resources
(`azurerm_network_interface_backend_address_pool_association`,
`azurerm_subnet_nat_gateway_association`), Read degrades every absence —
missing parent, missing named IP configuration, missing pool entry, missing
NAT-gateway reference — to clearing the resource ID and returning success;
the Read of `azurerm_iothub_route`, however, returns an error whenever the
parent fetch fails, a not-found response included. -/
theorem claim1_read_drift_behaviour
    (envA : NicReadEnv) (dA : AssocState) (ids : AssocFields)
    (hdec : decodeAssociationId dA.id = .ok ids)
    (hgetA : envA.get = .notFound)
    (envB : NicReadEnv) (dB : AssocState) (idsB : AssocFields)
    (hdecB : decodeAssociationId dB.id = .ok idsB)
    (readB : Interface) (hgetB : envB.get = .ok readB)
    (nicPropsB : InterfacePropertiesFormat) (hpropsB : readB.properties = some nicPropsB)
    (cfgsB : List InterfaceIPConfiguration) (hcfgsB : nicPropsB.ipConfigurations = some cfgsB)
    (hfindB : FindNetworkInterfaceIPConfiguration (some cfgsB) idsB.ipConfigurationName = none)
    (envC : NicReadEnv) (dC : AssocState) (idsC : AssocFields)
    (hdecC : decodeAssociationId dC.id = .ok idsC)
    (readC : Interface) (hgetC : envC.get = .ok readC)
    (nicPropsC : InterfacePropertiesFormat) (hpropsC : readC.properties = some nicPropsC)
    (cfgsC : List InterfaceIPConfiguration) (hcfgsC : nicPropsC.ipConfigurations = some cfgsC)
    (configC : InterfaceIPConfiguration)
    (hfindC : FindNetworkInterfaceIPConfiguration (some cfgsC) idsC.ipConfigurationName = some configC)
    (propsC : InterfaceIPConfigurationPropertiesFormat) (hpC : configC.properties = some propsC)
    (habsC : ∀ pool ∈ propsC.loadBalancerBackendAddressPools.getD [],
      pool.id ≠ some idsC.backendAddressPoolId)
    (envD : SubnetNatReadEnv) (dD : SubnetNatState) (sidD : SubnetIdFields)
    (hdecD : parseSubnetID dD.id = .ok sidD) (hgetD : envD.get = .notFound)
    (envE : SubnetNatReadEnv) (dE : SubnetNatState) (sidE : SubnetIdFields)
    (hdecE : parseSubnetID dE.id = .ok sidE)
    (subnetE : Subnet) (hgetE : envE.get = .ok subnetE)
    (propsE : SubnetPropertiesFormat) (hpropsE : subnetE.properties = some propsE)
    (hgwE : propsE.natGateway = none)
    (envF : RouteReadEnv) (dF : RouteState) (ridF : ResourceID)
    (hdecF : parseAzureResourceID dF.id = .ok ridF) (hgetF : envF.get = .notFound) :
    resourceNetworkInterfaceBackendAddressPoolAssociationRead envA dA =
      .ok { dA with id := "" } () ∧
    resourceNetworkInterfaceBackendAddressPoolAssociationRead envB dB =
      .ok { dB with id := "" } () ∧
    resourceNetworkInterfaceBackendAddressPoolAssociationRead envC dC =
      .ok { dC with id := "" } () ∧
    resourceSubnetNatGatewayAssociationRead envD dD = .ok { dD with id := "" } () ∧
    resourceSubnetNatGatewayAssociationRead envE dE = .ok { dE with id := "" } () ∧
    resourceIotHubRouteRead envF dF =
      .err (.retrieveFailed ("Error loading IotHub " ++ ridF.pathGet "IotHubs")) dF := by
  refine ⟨?_, ?_, ?_, ?_, ?_, ?_⟩
  · simp only [resourceNetworkInterfaceBackendAddressPoolAssociationRead, hdec, hgetA]
  · simp only [resourceNetworkInterfaceBackendAddressPoolAssociationRead, hdecB, hgetB,
      hpropsB, hcfgsB, hfindB]
  · have hany : (propsC.loadBalancerBackendAddressPools.getD []).any
        (fun pool => pool.id = some idsC.backendAddressPoolId) = false := by
      rw [List.any_eq_false]
      intro pool hpool
      simpa using habsC pool hpool
    simp only [resourceNetworkInterfaceBackendAddressPoolAssociationRead, hdecC, hgetC,
      hpropsC, hcfgsC, hfindC, hpC, hany, Bool.false_eq_true, if_false]
  · simp only [resourceSubnetNatGatewayAssociationRead, hdecD, hgetD]
  · simp only [resourceSubnetNatGatewayAssociationRead, hdecE, hgetE, hpropsE, hgwE]
  · simp only [resourceIotHubRouteRead, hdecF, hgetF]

/-- Witness for `claim1_read_drift_behaviour` at concrete inputs. -/
theorem claim1_read_drift_behaviour_witness :
    resourceNetworkInterfaceBackendAddressPoolAssociationRead ⟨.notFound⟩
      ⟨encodeAssociationId witnessNicId "cfg1" "pool1", "", "", ""⟩ =
      .ok ⟨"", "", "", ""⟩ () ∧
    resourceNetworkInterfaceBackendAddressPoolAssociationRead
      ⟨.ok { id := some "nicid", properties := some { ipConfigurations := some [] } }⟩
      ⟨encodeAssociationId witnessNicId "cfg1" "pool1", "", "", ""⟩ =
      .ok ⟨"", "", "", ""⟩ () ∧
    resourceNetworkInterfaceBackendAddressPoolAssociationRead
      ⟨.ok witnessConflictInterface⟩
      ⟨encodeAssociationId witnessNicId "cfg1" "poolB", "", "", ""⟩ =
      .ok ⟨"", "", "", ""⟩ () ∧
    resourceSubnetNatGatewayAssociationRead ⟨.notFound⟩
      ⟨"/subscriptions/s/resourceGroups/rg/providers/Microsoft.Network/virtualNetworks/vn1/subnets/sn1",
        "", ""⟩ = .ok ⟨"", "", ""⟩ () ∧
    resourceSubnetNatGatewayAssociationRead
      ⟨.ok { id := some "subid", properties := some { natGateway := none } }⟩
      ⟨"/subscriptions/s/resourceGroups/rg/providers/Microsoft.Network/virtualNetworks/vn1/subnets/sn1",
        "", ""⟩ = .ok ⟨"", "", ""⟩ () ∧
    resourceIotHubRouteRead ⟨.notFound⟩ witnessRouteState =
      .err (.retrieveFailed "Error loading IotHub hub1") witnessRouteState := by
  exact claim1_read_drift_behaviour
    ⟨.notFound⟩ ⟨encodeAssociationId witnessNicId "cfg1" "pool1", "", "", ""⟩
    ⟨"rg", "nic1", "cfg1", "pool1"⟩ rfl rfl
    ⟨.ok { id := some "nicid", properties := some { ipConfigurations := some [] } }⟩
    ⟨encodeAssociationId witnessNicId "cfg1" "pool1", "", "", ""⟩
    ⟨"rg", "nic1", "cfg1", "pool1"⟩ rfl
    _ rfl _ rfl [] rfl rfl
    ⟨.ok witnessConflictInterface⟩
    ⟨encodeAssociationId witnessNicId "cfg1" "poolB", "", "", ""⟩
    ⟨"rg", "nic1", "cfg1", "poolB"⟩ rfl
    witnessConflictInterface rfl
    { ipConfigurations := some [witnessConflictConfig] } rfl
    [witnessConflictConfig] rfl
    witnessConflictConfig (by decide)
    witnessPoolProps rfl (by decide)
    ⟨.notFound⟩
    ⟨"/subscriptions/s/resourceGroups/rg/providers/Microsoft.Network/virtualNetworks/vn1/subnets/sn1",
      "", ""⟩ ⟨"s", "rg", "vn1", "sn1"⟩ rfl rfl
    ⟨.ok { id := some "subid", properties := some { natGateway := none } }⟩
    ⟨"/subscriptions/s/resourceGroups/rg/providers/Microsoft.Network/virtualNetworks/vn1/subnets/sn1",
      "", ""⟩ ⟨"s", "rg", "vn1", "sn1"⟩ rfl
    _ rfl _ rfl rfl
    ⟨.notFound⟩ witnessRouteState
    { subscriptionID := "s", resourceGroup := "rg", provider := "Microsoft.Devices",
      path := [("IotHubs", "hub1"), ("Routes", "route1")] } rfl rfl

/-- **C5** counterexample: Delete of
`azurerm_network_interface_backend_address_pool_association`, when the
parent network interface is already absent, returns a "was not found" error
instead of succeeding — Delete is not idempotent for this resource. -/
theorem claim5_counterexample :
    resourceNetworkInterfaceBackendAddressPoolAssociationDelete ⟨.notFound, .ok, .ok⟩
      ⟨encodeAssociationId witnessNicId "cfg1" "pool1", witnessNicId, "cfg1", "pool1"⟩ =
      .err (.parentNotFound "Network Interface" "nic1" "rg")
      ⟨encodeAssociationId witnessNicId "cfg1" "pool1", witnessNicId, "cfg1", "pool1"⟩ := by
  rfl

/-- **C5** as amended: Delete is idempotent on an absent *nested element*
(the association delete succeeds when the targeted pool is no longer in the
collection; the route delete succeeds when the routing collection is gone),
and `azurerm_subnet_nat_gateway_association` Delete is idempotent even on an
absent parent subnet; but the Deletes of the NIC association and of
`azurerm_iothub_route` return a parent-not-found error when the parent
object itself is absent. -/
theorem claim5_delete_idempotency
    (envA : SubnetNatDeleteEnv) (dA : SubnetNatState) (sidA : SubnetIdFields)
    (hdecA : parseSubnetID dA.id = .ok sidA) (hgetA : envA.get = .notFound)
    (envB : SubnetNatDeleteEnv) (dB : SubnetNatState) (sidB : SubnetIdFields)
    (hdecB : parseSubnetID dB.id = .ok sidB)
    (subnetB : Subnet) (hgetB : envB.get = .ok subnetB)
    (propsB : SubnetPropertiesFormat) (hpropsB : subnetB.properties = some propsB)
    (hgwB : propsB.natGateway = none)
    (envC : RouteDeleteEnv) (dC : RouteState) (ridC : ResourceID)
    (hdecC : parseAzureResourceID dC.id = .ok ridC)
    (hubC : IotHubDescription) (hgetC : envC.get = .ok hubC)
    (hpropsC : hubC.properties = none)
    (envD : NicDeleteEnv) (dD : AssocState) (idsD : AssocFields)
    (hdecD : decodeAssociationId dD.id = .ok idsD)
    (readD : Interface) (hgetD : envD.get = .ok readD)
    (nicPropsD : InterfacePropertiesFormat) (hpropsD : readD.properties = some nicPropsD)
    (cfgsD : List InterfaceIPConfiguration) (hcfgsD : nicPropsD.ipConfigurations = some cfgsD)
    (configD : InterfaceIPConfiguration)
    (hfindD : FindNetworkInterfaceIPConfiguration (some cfgsD) idsD.ipConfigurationName = some configD)
    (propsD : InterfaceIPConfigurationPropertiesFormat) (hpD : configD.properties = some propsD)
    (_habsD : ∀ pool ∈ propsD.loadBalancerBackendAddressPools.getD [],
      pool.id ≠ some idsD.backendAddressPoolId)
    (hsubD : envD.createOrUpdate = .ok) (hwaitD : envD.wait = .ok)
    (envE : NicDeleteEnv) (dE : AssocState) (idsE : AssocFields)
    (hdecE : decodeAssociationId dE.id = .ok idsE) (hgetE : envE.get = .notFound)
    (envF : RouteDeleteEnv) (dF : RouteState) (ridF : ResourceID)
    (hdecF : parseAzureResourceID dF.id = .ok ridF) (hgetF : envF.get = .notFound) :
    resourceSubnetNatGatewayAssociationDelete envA dA = .ok dA none ∧
    resourceSubnetNatGatewayAssociationDelete envB dB = .ok dB none ∧
    resourceIotHubRouteDelete envC dC = .ok dC none ∧
    (∃ sub, resourceNetworkInterfaceBackendAddressPoolAssociationDelete envD dD =
      .ok dD sub) ∧
    resourceNetworkInterfaceBackendAddressPoolAssociationDelete envE dE =
      .err (.parentNotFound "Network Interface" idsE.networkInterfaceName
        idsE.resourceGroup) dE ∧
    resourceIotHubRouteDelete envF dF =
      .err (.parentNotFound "IotHub" (ridF.pathGet "IotHubs") ridF.resourceGroup) dF := by
  refine ⟨?_, ?_, ?_, ?_, ?_, ?_⟩
  · simp only [resourceSubnetNatGatewayAssociationDelete, hdecA, hgetA]
  · simp only [resourceSubnetNatGatewayAssociationDelete, hdecB, hgetB, hpropsB, hgwB]
  · simp only [resourceIotHubRouteDelete, hdecC, hgetC, hpropsC]
  · simp only [resourceNetworkInterfaceBackendAddressPoolAssociationDelete, hdecD, hgetD,
      hpropsD, hcfgsD, hfindD, hpD, hsubD, hwaitD]
    exact ⟨_, rfl⟩
  · simp only [resourceNetworkInterfaceBackendAddressPoolAssociationDelete, hdecE, hgetE]
  · simp only [resourceIotHubRouteDelete, hdecF, hgetF]

/-- Witness for `claim5_delete_idempotency` at concrete inputs. -/
theorem claim5_delete_idempotency_witness :
    resourceSubnetNatGatewayAssociationDelete ⟨.notFound, .notFound, .ok, .ok⟩
      ⟨"/subscriptions/s/resourceGroups/rg/providers/Microsoft.Network/virtualNetworks/vn1/subnets/sn1",
        "", ""⟩ =
      .ok ⟨"/subscriptions/s/resourceGroups/rg/providers/Microsoft.Network/virtualNetworks/vn1/subnets/sn1",
        "", ""⟩ none ∧
    resourceSubnetNatGatewayAssociationDelete
      ⟨.ok { id := some "subid", properties := some { natGateway := none } },
        .notFound, .ok, .ok⟩
      ⟨"/subscriptions/s/resourceGroups/rg/providers/Microsoft.Network/virtualNetworks/vn1/subnets/sn1",
        "", ""⟩ =
      .ok ⟨"/subscriptions/s/resourceGroups/rg/providers/Microsoft.Network/virtualNetworks/vn1/subnets/sn1",
        "", ""⟩ none ∧
    resourceIotHubRouteDelete
      ⟨.ok { id := some "hubid", properties := none }, .ok, .ok⟩ witnessRouteState =
      .ok witnessRouteState none ∧
    (∃ sub, resourceNetworkInterfaceBackendAddressPoolAssociationDelete
      ⟨.ok witnessConflictInterface, .ok, .ok⟩
      ⟨encodeAssociationId witnessNicId "cfg1" "poolB", "", "", ""⟩ =
      .ok ⟨encodeAssociationId witnessNicId "cfg1" "poolB", "", "", ""⟩ sub) ∧
    resourceNetworkInterfaceBackendAddressPoolAssociationDelete ⟨.notFound, .ok, .ok⟩
      ⟨encodeAssociationId witnessNicId "cfg1" "pool1", "", "", ""⟩ =
      .err (.parentNotFound "Network Interface" "nic1" "rg")
      ⟨encodeAssociationId witnessNicId "cfg1" "pool1", "", "", ""⟩ ∧
    resourceIotHubRouteDelete ⟨.notFound, .ok, .ok⟩ witnessRouteState =
      .err (.parentNotFound "IotHub" "hub1" "rg") witnessRouteState := by
  exact claim5_delete_idempotency
    ⟨.notFound, .notFound, .ok, .ok⟩
    ⟨"/subscriptions/s/resourceGroups/rg/providers/Microsoft.Network/virtualNetworks/vn1/subnets/sn1",
      "", ""⟩ ⟨"s", "rg", "vn1", "sn1"⟩ rfl rfl
    ⟨.ok { id := some "subid", properties := some { natGateway := none } },
      .notFound, .ok, .ok⟩
    ⟨"/subscriptions/s/resourceGroups/rg/providers/Microsoft.Network/virtualNetworks/vn1/subnets/sn1",
      "", ""⟩ ⟨"s", "rg", "vn1", "sn1"⟩ rfl
    _ rfl _ rfl rfl
    ⟨.ok { id := some "hubid", properties := none }, .ok, .ok⟩ witnessRouteState
    { subscriptionID := "s", resourceGroup := "rg", provider := "Microsoft.Devices",
      path := [("IotHubs", "hub1"), ("Routes", "route1")] } rfl
    _ rfl rfl
    ⟨.ok witnessConflictInterface, .ok, .ok⟩
    ⟨encodeAssociationId witnessNicId "cfg1" "poolB", "", "", ""⟩
    ⟨"rg", "nic1", "cfg1", "poolB"⟩ rfl
    witnessConflictInterface rfl
    { ipConfigurations := some [witnessConflictConfig] } rfl
    [witnessConflictConfig] rfl
    witnessConflictConfig (by decide)
    witnessPoolProps rfl (by decide) rfl rfl
    ⟨.notFound, .ok, .ok⟩
    ⟨encodeAssociationId witnessNicId "cfg1" "pool1", "", "", ""⟩
    ⟨"rg", "nic1", "cfg1", "pool1"⟩ rfl rfl
    ⟨.notFound, .ok, .ok⟩ witnessRouteState
    { subscriptionID := "s", resourceGroup := "rg", provider := "Microsoft.Devices",
      path := [("IotHubs", "hub1"), ("Routes", "route1")] } rfl rfl

/-- Observer: the pool collection a mutating association handler submitted,
when it reached submission successfully. -/
def submittedPools {σ : Type} : Outcome σ NicSubmission → Option (List BackendAddressPool)
  | .ok _ sub => some sub.pools
  | _ => none

/-- A pool-collection properties block holding a single entry with a nil ID,
used by counterexamples. -/
def witnessNilPoolProps : InterfaceIPConfigurationPropertiesFormat :=
  { loadBalancerBackendAddressPools := some [ { id := none } ] }

/-- An IP configuration named `cfg1` carrying `witnessNilPoolProps`. -/
def witnessNilPoolConfig : InterfaceIPConfiguration :=
  { name := some "cfg1", properties := some witnessNilPoolProps }

/-- A parent interface whose `cfg1` configuration holds one pool entry with
a nil ID. -/
def witnessNilPoolInterface : Interface :=
  { id := some "nicid",
    properties := some { ipConfigurations := some [witnessNilPoolConfig] } }

/-- A concrete pre-existing route named `other`, used by witnesses. -/
def witnessOtherRoute : RouteProperties :=
  { name := some "other", source := "DeviceMessages", condition := some "true",
    endpointNames := some ["e0"], isEnabled := some true }

/-- A concrete parent IoT Hub already routing `other`, used by witnesses. -/
def witnessRouteHub : IotHubDescription :=
  { id := some "hubid",
    properties := some { routing := some { routes := some [witnessOtherRoute] } } }

/-- **C2** counterexample: creating the association against a collection
holding the sibling entry `{ id := nil }` submits only the new entry — the
nil-ID sibling is dropped, so the submitted collection is not the
pre-existing collection plus the one new entry. -/
theorem claim2_counterexample :
    submittedPools (resourceNetworkInterfaceBackendAddressPoolAssociationCreate
      witnessNicId "cfg1" "poolB" ⟨.ok witnessNilPoolInterface, .ok, .ok⟩
      ⟨"", "", "", ""⟩) = some [{ id := some "poolB" }] ∧
    witnessNilPoolProps.loadBalancerBackendAddressPools.getD [] = [{ id := none }] ∧
    ([{ id := some "poolB" }] : List BackendAddressPool) ≠
      [{ id := none }, { id := some "poolB" }] ∧
    ({ id := none } : BackendAddressPool) ∉
      ([{ id := some "poolB" }] : List BackendAddressPool) := by
  refine ⟨rfl, rfl, by decide, by decide⟩

/-- **C2** as amended: membership-style Create preserves exactly the
pre-existing sibling entries that carry a non-nil identifier (in order,
followed by the new entry); entries with a nil identifier are dropped.  This
holds for the NIC/pool association and for the IoT Hub route. -/
theorem claim2_membership_create_preserves_nonnil_siblings
    (nicId ipName poolId : String) (env : NicCreateEnv) (d : AssocState)
    (rid : ResourceID) (hparse : parseAzureResourceID nicId = .ok rid)
    (read : Interface) (hget : env.get = .ok read)
    (props : InterfacePropertiesFormat) (hprops : read.properties = some props)
    (cfgs : List InterfaceIPConfiguration) (hcfgs : props.ipConfigurations = some cfgs)
    (config : InterfaceIPConfiguration)
    (hfind : FindNetworkInterfaceIPConfiguration (some cfgs) ipName = some config)
    (p : InterfaceIPConfigurationPropertiesFormat) (hp : config.properties = some p)
    (hno : ∀ q ∈ p.loadBalancerBackendAddressPools.getD [], q.id ≠ some poolId)
    (hsub : env.createOrUpdate = .ok) (hwait : env.wait = .ok)
    (cfgR : RouteConfig) (envR : RouteCreateEnv) (dR : RouteState)
    (hnew : cfgR.isNewResource = true)
    (hub : IotHubDescription) (hgetR : envR.get = .ok hub)
    (hubId : String) (hhubId : hub.id = some hubId)
    (hubProps : IotHubProperties) (hhubProps : hub.properties = some hubProps)
    (hnoR : ∀ r ∈ (hubProps.routing.getD { routes := none }).routes.getD [],
      ∀ n, r.name = some n → eqFold n cfgR.name = false)
    (hsubR : envR.createOrUpdate = .ok) (hwaitR : envR.wait = .ok) :
    (∃ req, resourceNetworkInterfaceBackendAddressPoolAssociationCreate
        nicId ipName poolId env d =
      .ok { d with id := encodeAssociationId nicId ipName poolId }
        ⟨req, (p.loadBalancerBackendAddressPools.getD []).filter
            (fun q => q.id.isSome) ++ [{ id := some poolId }]⟩) ∧
    resourceIotHubRouteCreateUpdate cfgR envR dR =
      .ok { dR with id := hubId ++ "/Routes/" ++ cfgR.name }
        (((hubProps.routing.getD { routes := none }).routes.getD []).filter
            (fun r => r.name.isSome) ++
          [{ name := some cfgR.name, source := cfgR.source,
             condition := some cfgR.condition,
             endpointNames := some cfgR.endpointNames,
             isEnabled := some cfgR.enabled }]) := by
  constructor
  · simp only [resourceNetworkInterfaceBackendAddressPoolAssociationCreate, hparse, hget,
      hprops, hcfgs, hfind, hp, collectPools_of_no_match hno, hsub, hwait]
    exact ⟨_, rfl⟩
  · simp only [resourceIotHubRouteCreateUpdate, hgetR, hhubId, hhubProps,
      buildRoutes_of_no_match hnoR, hnew, if_true, hsubR, hwaitR]

/-- Witness for `claim2_membership_create_preserves_nonnil_siblings`. -/
theorem claim2_membership_create_preserves_nonnil_siblings_witness :
    (∃ req, resourceNetworkInterfaceBackendAddressPoolAssociationCreate
        witnessNicId "cfg1" "poolB" ⟨.ok witnessConflictInterface, .ok, .ok⟩
        ⟨"", "", "", ""⟩ =
      .ok ⟨encodeAssociationId witnessNicId "cfg1" "poolB", "", "", ""⟩
        ⟨req, [{ id := some "pool1" }, { id := some "poolB" }]⟩) ∧
    resourceIotHubRouteCreateUpdate
      ⟨"r1", "rg", "hub1", "DeviceMessages", "true", ["e1"], true, true⟩
      ⟨.ok witnessRouteHub, .ok, .ok⟩ ⟨"", "", "", "", "", "", false, []⟩ =
      .ok ⟨"hubid/Routes/r1", "", "", "", "", "", false, []⟩
        [witnessOtherRoute,
         { name := some "r1", source := "DeviceMessages", condition := some "true",
           endpointNames := some ["e1"], isEnabled := some true }] := by
  have h := claim2_membership_create_preserves_nonnil_siblings
    witnessNicId "cfg1" "poolB" ⟨.ok witnessConflictInterface, .ok, .ok⟩ ⟨"", "", "", ""⟩
    { subscriptionID := "s", resourceGroup := "rg", provider := "Microsoft.Network",
      path := [("networkInterfaces", "nic1")] } rfl
    witnessConflictInterface rfl
    { ipConfigurations := some [witnessConflictConfig] } rfl
    [witnessConflictConfig] rfl
    witnessConflictConfig (by decide)
    witnessPoolProps rfl (by decide) rfl rfl
    ⟨"r1", "rg", "hub1", "DeviceMessages", "true", ["e1"], true, true⟩
    ⟨.ok witnessRouteHub, .ok, .ok⟩ ⟨"", "", "", "", "", "", false, []⟩ rfl
    witnessRouteHub rfl "hubid" rfl
    { routing := some { routes := some [witnessOtherRoute] } } rfl
    (by decide) rfl rfl
  exact h

/-- A pool-collection properties block holding a nil-ID entry next to the
entry `A`, used by counterexamples. -/
def witnessMixedPoolProps : InterfaceIPConfigurationPropertiesFormat :=
  { loadBalancerBackendAddressPools := some [ { id := none }, { id := some "A" } ] }

/-- An IP configuration named `cfg1` carrying `witnessMixedPoolProps`. -/
def witnessMixedPoolConfig : InterfaceIPConfiguration :=
  { name := some "cfg1", properties := some witnessMixedPoolProps }

/-- A parent interface whose `cfg1` configuration holds `witnessMixedPoolProps`. -/
def witnessMixedPoolInterface : Interface :=
  { id := some "nicid",
    properties := some { ipConfigurations := some [witnessMixedPoolConfig] } }

/-- A pool collection containing the targeted entry `poolB` together with a
nil-ID sibling and the sibling `A`, used by the C3 counterexample. -/
def witnessTargetPoolProps : InterfaceIPConfigurationPropertiesFormat :=
  { loadBalancerBackendAddressPools :=
      some [ { id := none }, { id := some "poolB" }, { id := some "A" } ] }

/-- An IP configuration named `cfg1` carrying `witnessTargetPoolProps`. -/
def witnessTargetPoolConfig : InterfaceIPConfiguration :=
  { name := some "cfg1", properties := some witnessTargetPoolProps }

/-- A parent interface whose `cfg1` configuration holds
`witnessTargetPoolProps`. -/
def witnessTargetPoolInterface : Interface :=
  { id := some "nicid",
    properties := some { ipConfigurations := some [witnessTargetPoolConfig] } }

/-- **C3** counterexample: deleting the association `poolB` from the
collection `[{ id := nil }, { id := poolB }, { id := A }]` — which does
contain the targeted entry — submits `[{ id := A }]`, whereas the input with
exactly the entries matching the targeted identifier removed is
`[{ id := nil }, { id := A }]`: the nil-ID sibling, which does not match the
targeted identifier, is dropped as well, so not every non-matching sibling
entry is retained. -/
theorem claim3_counterexample :
    submittedPools (resourceNetworkInterfaceBackendAddressPoolAssociationDelete
      ⟨.ok witnessTargetPoolInterface, .ok, .ok⟩
      ⟨encodeAssociationId witnessNicId "cfg1" "poolB", "", "", ""⟩) =
      some [{ id := some "A" }] ∧
    witnessTargetPoolProps.loadBalancerBackendAddressPools.getD [] =
      [{ id := none }, { id := some "poolB" }, { id := some "A" }] ∧
    ({ id := some "poolB" } : BackendAddressPool) ∈
      witnessTargetPoolProps.loadBalancerBackendAddressPools.getD [] ∧
    ([{ id := some "A" }] : List BackendAddressPool) ≠
      [{ id := none }, { id := some "A" }] ∧
    ({ id := none } : BackendAddressPool) ∉
      ([{ id := some "A" }] : List BackendAddressPool) := by
  refine ⟨rfl, rfl, by decide, by decide, by decide⟩

/-- Membership in the Delete handler's filtered pool collection: exactly the
entries with a non-nil ID different from the target survive. -/
theorem mem_deleteFilter_pool_iff (target : String) (l : List BackendAddressPool)
    (q : BackendAddressPool) :
    (q ∈ l.filter (fun pool =>
        match pool.id with
        | some i => i ≠ target
        | none => false)) ↔
      (q ∈ l ∧ ∃ i, q.id = some i ∧ i ≠ target) := by
  rw [List.mem_filter]
  constructor
  · rintro ⟨hq, hf⟩
    refine ⟨hq, ?_⟩
    cases hid : q.id with
    | none => rw [hid] at hf; simp at hf
    | some i =>
      rw [hid] at hf
      exact ⟨i, rfl, by simpa using hf⟩
  · rintro ⟨hq, i, hid, hne⟩
    refine ⟨hq, ?_⟩
    rw [hid]
    simpa using hne

/-- Membership in the route Delete handler's filtered collection: exactly
the routes with a non-nil name not matching the target survive. -/
theorem mem_deleteFilter_route_iff (target : String) (l : List RouteProperties)
    (r : RouteProperties) :
    (r ∈ l.filter (fun route =>
        match route.name with
        | some n => !eqFold n target
        | none => false)) ↔
      (r ∈ l ∧ ∃ n, r.name = some n ∧ eqFold n target = false) := by
  rw [List.mem_filter]
  constructor
  · rintro ⟨hr, hf⟩
    refine ⟨hr, ?_⟩
    cases hn : r.name with
    | none => rw [hn] at hf; simp at hf
    | some n =>
      rw [hn] at hf
      exact ⟨n, rfl, by simpa using hf⟩
  · rintro ⟨hr, n, hn, hne⟩
    refine ⟨hr, ?_⟩
    rw [hn]
    simpa using hne

/-- **C3** as amended: membership-style Delete submits exactly the entries
whose non-nil identifier differs from the targeted one — every non-matching
sibling *with a non-nil identifier* is retained, and both the matching
entries and the nil-identifier entries are removed.  This holds for the
NIC/pool association and for the IoT Hub route. -/
theorem claim3_membership_delete_filters
    (env : NicDeleteEnv) (d : AssocState) (ids : AssocFields)
    (hdec : decodeAssociationId d.id = .ok ids)
    (read : Interface) (hget : env.get = .ok read)
    (nicProps : InterfacePropertiesFormat) (hprops : read.properties = some nicProps)
    (cfgs : List InterfaceIPConfiguration) (hcfgs : nicProps.ipConfigurations = some cfgs)
    (config : InterfaceIPConfiguration)
    (hfind : FindNetworkInterfaceIPConfiguration (some cfgs) ids.ipConfigurationName = some config)
    (props : InterfaceIPConfigurationPropertiesFormat) (hp : config.properties = some props)
    (hsub : env.createOrUpdate = .ok) (hwait : env.wait = .ok)
    (envR : RouteDeleteEnv) (dR : RouteState) (ridR : ResourceID)
    (hdecR : parseAzureResourceID dR.id = .ok ridR)
    (hubR : IotHubDescription) (hgetR : envR.get = .ok hubR)
    (hubPropsR : IotHubProperties) (hhubPropsR : hubR.properties = some hubPropsR)
    (routingR : RoutingProperties) (hroutingR : hubPropsR.routing = some routingR)
    (routesR : List RouteProperties) (hroutesR : routingR.routes = some routesR)
    (hsubR : envR.createOrUpdate = .ok) (hwaitR : envR.wait = .ok) :
    (∃ req, resourceNetworkInterfaceBackendAddressPoolAssociationDelete env d =
      .ok d ⟨req, (props.loadBalancerBackendAddressPools.getD []).filter
        (fun pool =>
          match pool.id with
          | some i => i ≠ ids.backendAddressPoolId
          | none => false)⟩) ∧
    (∀ q, q ∈ (props.loadBalancerBackendAddressPools.getD []).filter
        (fun pool =>
          match pool.id with
          | some i => i ≠ ids.backendAddressPoolId
          | none => false) ↔
      (q ∈ props.loadBalancerBackendAddressPools.getD [] ∧
        ∃ i, q.id = some i ∧ i ≠ ids.backendAddressPoolId)) ∧
    resourceIotHubRouteDelete envR dR =
      .ok dR (some (routesR.filter (fun route =>
        match route.name with
        | some n => !eqFold n (ridR.pathGet "Routes")
        | none => false))) ∧
    (∀ r, r ∈ routesR.filter (fun route =>
        match route.name with
        | some n => !eqFold n (ridR.pathGet "Routes")
        | none => false) ↔
      (r ∈ routesR ∧ ∃ n, r.name = some n ∧
        eqFold n (ridR.pathGet "Routes") = false)) := by
  refine ⟨?_, ?_, ?_, ?_⟩
  · simp only [resourceNetworkInterfaceBackendAddressPoolAssociationDelete, hdec, hget,
      hprops, hcfgs, hfind, hp, hsub, hwait]
    exact ⟨_, rfl⟩
  · intro q
    exact mem_deleteFilter_pool_iff ids.backendAddressPoolId _ q
  · simp only [resourceIotHubRouteDelete, hdecR, hgetR, hhubPropsR, hroutingR, hroutesR,
      hsubR, hwaitR]
  · intro r
    exact mem_deleteFilter_route_iff (ridR.pathGet "Routes") _ r

/-- Witness for `claim3_membership_delete_filters` at concrete inputs. -/
theorem claim3_membership_delete_filters_witness :
    (∃ req, resourceNetworkInterfaceBackendAddressPoolAssociationDelete
      ⟨.ok witnessMixedPoolInterface, .ok, .ok⟩
      ⟨encodeAssociationId witnessNicId "cfg1" "poolB", "", "", ""⟩ =
      .ok ⟨encodeAssociationId witnessNicId "cfg1" "poolB", "", "", ""⟩
        ⟨req, [{ id := some "A" }]⟩) ∧
    resourceIotHubRouteDelete ⟨.ok witnessRouteHub, .ok, .ok⟩ witnessRouteState =
      .ok witnessRouteState (some [witnessOtherRoute]) := by
  have h := claim3_membership_delete_filters
    ⟨.ok witnessMixedPoolInterface, .ok, .ok⟩
    ⟨encodeAssociationId witnessNicId "cfg1" "poolB", "", "", ""⟩
    ⟨"rg", "nic1", "cfg1", "poolB"⟩ rfl
    witnessMixedPoolInterface rfl
    { ipConfigurations := some [witnessMixedPoolConfig] } rfl
    [witnessMixedPoolConfig] rfl
    witnessMixedPoolConfig (by decide)
    witnessMixedPoolProps rfl rfl rfl
    ⟨.ok witnessRouteHub, .ok, .ok⟩ witnessRouteState
    { subscriptionID := "s", resourceGroup := "rg", provider := "Microsoft.Devices",
      path := [("IotHubs", "hub1"), ("Routes", "route1")] } rfl
    witnessRouteHub rfl
    { routing := some { routes := some [witnessOtherRoute] } } rfl
    { routes := some [witnessOtherRoute] } rfl
    [witnessOtherRoute] rfl rfl rfl
  obtain ⟨req, hreq⟩ := h.1
  exact ⟨⟨req, hreq⟩, h.2.2.1⟩

/-- **C10**: whatever collection a successful membership-style Create or
Delete submitted, it contains no entry with a nil identifier: nil-ID pools
and nil-name routes are silently omitted from the rewritten collection. -/
theorem claim10_nil_identifier_entries_omitted
    (nicId ipName poolId : String) (env : NicCreateEnv) (d d' : AssocState)
    (sub : NicSubmission)
    (hc : resourceNetworkInterfaceBackendAddressPoolAssociationCreate
      nicId ipName poolId env d = .ok d' sub)
    (envD : NicDeleteEnv) (dD dD' : AssocState) (subD : NicSubmission)
    (hd : resourceNetworkInterfaceBackendAddressPoolAssociationDelete envD dD = .ok dD' subD)
    (envR : RouteDeleteEnv) (dR dR' : RouteState) (routes : List RouteProperties)
    (hr : resourceIotHubRouteDelete envR dR = .ok dR' (some routes)) :
    (∀ q ∈ sub.pools, q.id.isSome) ∧
    (∀ q ∈ subD.pools, q.id.isSome) ∧
    (∀ r ∈ routes, r.name.isSome) := by
  refine ⟨?_, ?_, ?_⟩
  · unfold resourceNetworkInterfaceBackendAddressPoolAssociationCreate at hc
    repeat' split at hc
    all_goals simp only [Outcome.ok.injEq, reduceCtorEq] at hc
    intro q hq
    rw [← hc.2] at hq
    rcases List.mem_append.mp hq with h | h
    · exact collectPools_mem_isSome (by assumption) q h
    · simp only [List.mem_singleton] at h
      subst h
      rfl
  · unfold resourceNetworkInterfaceBackendAddressPoolAssociationDelete at hd
    repeat' split at hd
    all_goals simp only [Outcome.ok.injEq, reduceCtorEq] at hd
    intro q hq
    rw [← hd.2] at hq
    have hpred := (List.mem_filter.mp hq).2
    cases hqid : q.id with
    | none => rw [hqid] at hpred; simp at hpred
    | some i => rfl
  · unfold resourceIotHubRouteDelete at hr
    repeat' split at hr
    all_goals simp only [Outcome.ok.injEq, Option.some.injEq, reduceCtorEq, and_false, false_and] at hr
    all_goals intro r hrr
    all_goals rw [← hr.2] at hrr
    all_goals have hpred := (List.mem_filter.mp hrr).2
    all_goals cases hn : r.name with
    | none => rw [hn] at hpred; simp at hpred
    | some n => rfl

/-- The `cfg1` configuration as resubmitted by the witness Create: it now
carries `pool1` and `poolB`. -/
def witnessCreateRequestConfig : InterfaceIPConfiguration where
  name := some "cfg1"
  properties := some ⟨some [{ id := some "pool1" }, { id := some "poolB" }]⟩

/-- The interface submitted by the witness Create. -/
def witnessCreateRequest : Interface :=
  { id := some "nicid",
    properties := some { ipConfigurations := some [witnessCreateRequestConfig] } }

/-- The `cfg1` configuration as resubmitted by the witness Delete: only `A`
survives. -/
def witnessDeleteRequestConfig : InterfaceIPConfiguration where
  name := some "cfg1"
  properties := some ⟨some [{ id := some "A" }]⟩

/-- The interface submitted by the witness Delete. -/
def witnessDeleteRequest : Interface :=
  { id := some "nicid",
    properties := some { ipConfigurations := some [witnessDeleteRequestConfig] } }

/-- Witness for `claim10_nil_identifier_entries_omitted` at concrete inputs. -/
theorem claim10_nil_identifier_entries_omitted_witness :
    (∀ q ∈ ([{ id := some "pool1" }, { id := some "poolB" }] : List BackendAddressPool),
      q.id.isSome) ∧
    (∀ q ∈ ([{ id := some "A" }] : List BackendAddressPool), q.id.isSome) ∧
    (∀ r ∈ [witnessOtherRoute], r.name.isSome) := by
  exact claim10_nil_identifier_entries_omitted
    witnessNicId "cfg1" "poolB" ⟨.ok witnessConflictInterface, .ok, .ok⟩
    ⟨"", "", "", ""⟩ ⟨encodeAssociationId witnessNicId "cfg1" "poolB", "", "", ""⟩
    ⟨witnessCreateRequest, [{ id := some "pool1" }, { id := some "poolB" }]⟩ (by rfl)
    ⟨.ok witnessMixedPoolInterface, .ok, .ok⟩
    ⟨encodeAssociationId witnessNicId "cfg1" "poolB", "", "", ""⟩
    ⟨encodeAssociationId witnessNicId "cfg1" "poolB", "", "", ""⟩
    ⟨witnessDeleteRequest, [{ id := some "A" }]⟩ (by rfl)
    ⟨.ok witnessRouteHub, .ok, .ok⟩ witnessRouteState witnessRouteState
    [witnessOtherRoute] (by rfl)

/-- The error paths of `backupContainerCreateSubmit` leave the state
untouched, and its success requires both the registration and the operation
wait to have succeeded. -/
theorem backupContainerCreateSubmit_frame (env : BackupCreateEnv)
    (d : BackupContainerState) :
    (∀ e s, backupContainerCreateSubmit env d = .err e s → s = d) ∧
    (∀ d' v, backupContainerCreateSubmit env d = .ok d' v →
      env.register = .ok ∧ env.waitOp = .ok) := by
  constructor
  · intro e s h
    unfold backupContainerCreateSubmit at h
    repeat' split at h
    all_goals simp only [Outcome.err.injEq, reduceCtorEq] at h
    all_goals exact h.2.symm
  · intro d' v h
    unfold backupContainerCreateSubmit at h
    repeat' split at h
    all_goals simp only [Outcome.ok.injEq, reduceCtorEq] at h
    exact ⟨by assumption, by assumption⟩

/-- **C8**: no partial local state before the identifier is persisted — the
NIC/pool association Create and the backup-container Create leave the prior
state untouched on every failure path, and the new resource ID is set only
when the remote mutation has been submitted and awaited successfully. -/
theorem claim8_no_partial_state_before_id
    (nicId ipName poolId : String) (env : NicCreateEnv) (d : AssocState)
    (resGroup vaultName storageAccountID : String) (isNew : Bool)
    (envB : BackupCreateEnv) (dB : BackupContainerState) :
    (∀ e s, resourceNetworkInterfaceBackendAddressPoolAssociationCreate
      nicId ipName poolId env d = .err e s → s = d) ∧
    (∀ d' sub, resourceNetworkInterfaceBackendAddressPoolAssociationCreate
      nicId ipName poolId env d = .ok d' sub →
      d' = { d with id := encodeAssociationId nicId ipName poolId } ∧
      env.createOrUpdate = .ok ∧ env.wait = .ok) ∧
    (∀ e s, resourceBackupProtectionContainerStorageAccountCreate
      resGroup vaultName storageAccountID isNew envB dB = .err e s → s = dB) ∧
    (∀ d' v, resourceBackupProtectionContainerStorageAccountCreate
      resGroup vaultName storageAccountID isNew envB dB = .ok d' v →
      envB.register = .ok ∧ envB.waitOp = .ok) := by
  refine ⟨?_, ?_, ?_, ?_⟩
  · intro e s h
    unfold resourceNetworkInterfaceBackendAddressPoolAssociationCreate at h
    repeat' split at h
    all_goals simp only [Outcome.err.injEq, reduceCtorEq] at h
    all_goals exact h.2.symm
  · intro d' sub h
    unfold resourceNetworkInterfaceBackendAddressPoolAssociationCreate at h
    repeat' split at h
    all_goals simp only [Outcome.ok.injEq, reduceCtorEq] at h
    exact ⟨h.1.symm, by assumption, by assumption⟩
  · intro e s h
    unfold resourceBackupProtectionContainerStorageAccountCreate at h
    repeat' split at h
    all_goals first
      | exact ((backupContainerCreateSubmit_frame envB dB).1 e s h)
      | (simp only [Outcome.err.injEq, reduceCtorEq] at h; exact h.2.symm)
  · intro d' v h
    unfold resourceBackupProtectionContainerStorageAccountCreate at h
    repeat' split at h
    all_goals first
      | exact ((backupContainerCreateSubmit_frame envB dB).2 d' v h)
      | simp only [reduceCtorEq] at h

/-- Witness for `claim8_no_partial_state_before_id` at concrete inputs. -/
theorem claim8_no_partial_state_before_id_witness :
    ((∀ e s, resourceNetworkInterfaceBackendAddressPoolAssociationCreate
      witnessNicId "cfg1" "poolB" ⟨.notFound, .ok, .ok⟩ ⟨"", "", "", ""⟩ = .err e s →
      s = (⟨"", "", "", ""⟩ : AssocState)) ∧
    (∀ d' sub, resourceNetworkInterfaceBackendAddressPoolAssociationCreate
      witnessNicId "cfg1" "poolB" ⟨.notFound, .ok, .ok⟩ ⟨"", "", "", ""⟩ = .ok d' sub →
      d' = (⟨encodeAssociationId witnessNicId "cfg1" "poolB", "", "", ""⟩ : AssocState) ∧
      OpResult.ok = OpResult.ok ∧ OpResult.ok = OpResult.ok) ∧
    (∀ e s, resourceBackupProtectionContainerStorageAccountCreate
      "rg" "vault1"
      "/subscriptions/s/resourceGroups/rg/providers/Microsoft.Storage/storageAccounts/acct1"
      true ⟨.notFound, .failed "boom", some "/x/y", .ok, .notFound⟩ ⟨""⟩ = .err e s →
      s = (⟨""⟩ : BackupContainerState)) ∧
    (∀ d' v, resourceBackupProtectionContainerStorageAccountCreate
      "rg" "vault1"
      "/subscriptions/s/resourceGroups/rg/providers/Microsoft.Storage/storageAccounts/acct1"
      true ⟨.notFound, .failed "boom", some "/x/y", .ok, .notFound⟩ ⟨""⟩ = .ok d' v →
      OpResult.failed "boom" = .ok ∧ OpResult.ok = .ok)) := by
  exact claim8_no_partial_state_before_id
    witnessNicId "cfg1" "poolB" ⟨.notFound, .ok, .ok⟩ ⟨"", "", "", ""⟩
    "rg" "vault1"
    "/subscriptions/s/resourceGroups/rg/providers/Microsoft.Storage/storageAccounts/acct1"
    true ⟨.notFound, .failed "boom", some "/x/y", .ok, .notFound⟩ ⟨""⟩


/-- The canonical shape of a network-interface resource ID, as accepted by
`azure.ValidateResourceID` for the `network_interface_id` attribute. -/
def mkNetworkInterfaceId (sub rg name : String) : String :=
  "/subscriptions/" ++ sub ++ "/resourceGroups/" ++ rg ++
    "/providers/Microsoft.Network/networkInterfaces/" ++ name

/-- `s.data` of a non-empty string is a non-empty list. -/
theorem data_ne_nil {s : String} (h : s ≠ "") : s.data ≠ [] :=
  fun hd => h (String.ext hd)

/-- `List.asString` undoes `String.data`. -/
theorem asString_data (s : String) : s.data.asString = s := rfl

/-- Join path segments with `/` separators (no leading or trailing slash). -/
def joinSegments : List (List Char) → List Char
  | [] => []
  | [s] => s
  | s :: rest => s ++ '/' :: joinSegments rest

theorem joinSegments_cons_cons (t : List Char) (u : List Char) (ts : List (List Char)) :
    joinSegments (t :: u :: ts) = t ++ '/' :: joinSegments (u :: ts) := rfl

/-- Splitting the joined segments on `/` recovers the segments. -/
theorem splitOnChar_joinSegments :
    ∀ {segs : List (List Char)}, (∀ s ∈ segs, '/' ∉ s) → segs ≠ [] →
      splitOnChar '/' (joinSegments segs) = segs
  | [], _, hne => absurd rfl hne
  | [s], h, _ => by
    simpa [joinSegments] using splitOnChar_not_mem (h s (by simp))
  | s :: t :: ts, h, _ => by
    rw [joinSegments_cons_cons, splitOnChar_append _ (h s (by simp)),
      splitOnChar_joinSegments (fun x hx => h x (List.mem_cons_of_mem s hx)) (by simp)]

/-- Joining a list ending in a non-empty segment is non-empty. -/
theorem joinSegments_append_singleton_ne_nil :
    ∀ (segs : List (List Char)) (s : List Char), s ≠ [] →
      joinSegments (segs ++ [s]) ≠ []
  | [], s, hs => by simpa [joinSegments] using hs
  | [t], s, _ => by simp [joinSegments]
  | t :: u :: ts, s, hs => by
    rw [List.cons_append, List.cons_append, joinSegments_cons_cons]
    simp

/-- The last character of joined segments is the last character of the last
segment. -/
theorem joinSegments_getLast? :
    ∀ (segs : List (List Char)) (s : List Char), s ≠ [] →
      (joinSegments (segs ++ [s])).getLast? = s.getLast?
  | [], s, _ => by simp [joinSegments]
  | [t], s, hs => by
    have h1 : ([t] : List (List Char)) ++ [s] = [t, s] := rfl
    have h2 : joinSegments [s] = s := rfl
    rw [h1, joinSegments_cons_cons, List.getLast?_append_cons,
      show ('/' :: joinSegments [s]) = ['/'] ++ joinSegments [s] from rfl, h2,
      List.getLast?_append_of_ne_nil _ hs]
  | t :: u :: ts, s, hs => by
    have h1 : (t :: u :: ts) ++ [s] = t :: ((u :: ts) ++ [s]) := rfl
    have h2 : (u :: ts) ++ [s] = u :: (ts ++ [s]) := rfl
    rw [h1, h2, joinSegments_cons_cons, List.getLast?_append_cons,
      show ('/' :: joinSegments (u :: (ts ++ [s]))) =
        ['/'] ++ joinSegments (u :: (ts ++ [s])) from rfl, ← h2,
      List.getLast?_append_of_ne_nil _ (joinSegments_append_singleton_ne_nil (u :: ts) s hs)]
    exact joinSegments_getLast? (u :: ts) s hs

/-- The character-level shape of the composite
`{networkInterfaceId}/ipConfigurations/{name}` string. -/
theorem mkNicIpData (sub rg nicName ipName : String) :
    (mkNetworkInterfaceId sub rg nicName ++ "/ipConfigurations/" ++ ipName).data =
      '/' :: joinSegments ["subscriptions".data, sub.data, "resourceGroups".data,
        rg.data, "providers".data, "Microsoft.Network".data,
        "networkInterfaces".data, nicName.data, "ipConfigurations".data, ipName.data] := by
  have e1 : "/subscriptions/".data = '/' :: ("subscriptions".data ++ ['/']) := by decide
  have e2 : "/resourceGroups/".data = '/' :: ("resourceGroups".data ++ ['/']) := by decide
  have e3 : "/providers/Microsoft.Network/networkInterfaces/".data =
      '/' :: ("providers".data ++ '/' :: ("Microsoft.Network".data ++ '/' ::
        ("networkInterfaces".data ++ ['/']))) := by decide
  have e4 : "/ipConfigurations/".data = '/' :: ("ipConfigurations".data ++ ['/']) := by decide
  simp only [mkNetworkInterfaceId, String.data_append, joinSegments_cons_cons, joinSegments,
    e1, e2, e3, e4]
  simp [List.append_assoc]

/-- Parsing the composite `{nicId}/ipConfigurations/{name}` string recovers
the subscription, resource group, provider and typed path segments. -/
theorem parseAzureResourceID_nicConfig (sub rg nicName ipName : String)
    (hsub1 : sub ≠ "") (hsub2 : '/' ∉ sub.data)
    (hrg1 : rg ≠ "") (hrg2 : '/' ∉ rg.data)
    (hn1 : nicName ≠ "") (hn2 : '/' ∉ nicName.data)
    (hip1 : ipName ≠ "") (hip2 : '/' ∉ ipName.data) :
    parseAzureResourceID
      (mkNetworkInterfaceId sub rg nicName ++ "/ipConfigurations/" ++ ipName) =
      .ok { subscriptionID := sub, resourceGroup := rg, provider := "Microsoft.Network",
            path := [("networkInterfaces", nicName), ("ipConfigurations", ipName)] } := by
  have hdata := mkNicIpData sub rg nicName ipName
  have hlast : (joinSegments ["subscriptions".data, sub.data, "resourceGroups".data, rg.data, "providers".data, "Microsoft.Network".data, "networkInterfaces".data, nicName.data, "ipConfigurations".data, ipName.data]).getLast? = ipName.data.getLast? :=
    joinSegments_getLast? ["subscriptions".data, sub.data, "resourceGroups".data,
      rg.data, "providers".data, "Microsoft.Network".data, "networkInterfaces".data,
      nicName.data, "ipConfigurations".data] ipName.data (data_ne_nil hip1)
  have hnotslash : ¬ (ipName.data.getLast? = some '/') := by
    intro hctr
    obtain ⟨hh, hx⟩ := List.mem_getLast?_eq_getLast (show '/' ∈ ipName.data.getLast? from hctr)
    exact hip2 (hx ▸ List.getLast_mem hh)
  have hsplit : splitOnChar '/' (joinSegments ["subscriptions".data, sub.data, "resourceGroups".data, rg.data, "providers".data, "Microsoft.Network".data, "networkInterfaces".data, nicName.data, "ipConfigurations".data, ipName.data]) = ["subscriptions".data, sub.data, "resourceGroups".data, rg.data, "providers".data, "Microsoft.Network".data, "networkInterfaces".data, nicName.data, "ipConfigurations".data, ipName.data] := by
    refine splitOnChar_joinSegments ?_ (by simp)
    intro x hx
    simp only [List.mem_cons, List.not_mem_nil, or_false] at hx
    rcases hx with rfl | rfl | rfl | rfl | rfl | rfl | rfl | rfl | rfl | rfl
    · decide
    · exact hsub2
    · decide
    · exact hrg2
    · decide
    · decide
    · decide
    · exact hn2
    · decide
    · exact hip2
  have hany : ([("subscriptions", sub), ("resourceGroups", rg), ("providers", "Microsoft.Network"), ("networkInterfaces", nicName), ("ipConfigurations", ipName)].any (fun p => p.1 = "" ∨ p.2 = "")) = false := by
    rw [List.any_eq_false]
    intro p hp
    simp only [List.mem_cons, List.not_mem_nil, or_false] at hp
    rcases hp with rfl | rfl | rfl | rfl | rfl <;> simp [hsub1, hrg1, hn1, hip1]
  have hpp : parsePairs
      (mkNetworkInterfaceId sub rg nicName ++ "/ipConfigurations/" ++ ipName) [("subscriptions", sub), ("resourceGroups", rg), ("providers", "Microsoft.Network"), ("networkInterfaces", nicName), ("ipConfigurations", ipName)] =
      .ok { subscriptionID := sub, resourceGroup := rg, provider := "Microsoft.Network",
            path := [("networkInterfaces", nicName), ("ipConfigurations", ipName)] } := by
    unfold parsePairs
    rw [hany]
    rfl
  have hlead : dropLeadingSlash ('/' :: joinSegments ["subscriptions".data, sub.data, "resourceGroups".data, rg.data, "providers".data, "Microsoft.Network".data, "networkInterfaces".data, nicName.data, "ipConfigurations".data, ipName.data]) = joinSegments ["subscriptions".data, sub.data, "resourceGroups".data, rg.data, "providers".data, "Microsoft.Network".data, "networkInterfaces".data, nicName.data, "ipConfigurations".data, ipName.data] := by
    unfold dropLeadingSlash
    rw [List.head?_cons, if_pos rfl, List.tail_cons]
  have htrail : dropTrailingSlash (joinSegments ["subscriptions".data, sub.data, "resourceGroups".data, rg.data, "providers".data, "Microsoft.Network".data, "networkInterfaces".data, nicName.data, "ipConfigurations".data, ipName.data]) = joinSegments ["subscriptions".data, sub.data, "resourceGroups".data, rg.data, "providers".data, "Microsoft.Network".data, "networkInterfaces".data, nicName.data, "ipConfigurations".data, ipName.data] := by
    unfold dropTrailingSlash
    rw [hlast, if_neg hnotslash]
  have htrim : trimSlashes ('/' :: joinSegments ["subscriptions".data, sub.data, "resourceGroups".data, rg.data, "providers".data, "Microsoft.Network".data, "networkInterfaces".data, nicName.data, "ipConfigurations".data, ipName.data]) = joinSegments ["subscriptions".data, sub.data, "resourceGroups".data, rg.data, "providers".data, "Microsoft.Network".data, "networkInterfaces".data, nicName.data, "ipConfigurations".data, ipName.data] := by
    unfold trimSlashes
    rw [hlead, htrail]
  unfold parseAzureResourceID
  rw [hdata, htrim, hsplit,
    show List.map List.asString ["subscriptions".data, sub.data, "resourceGroups".data, rg.data, "providers".data, "Microsoft.Network".data, "networkInterfaces".data, nicName.data, "ipConfigurations".data, ipName.data] = ["subscriptions", sub, "resourceGroups", rg, "providers", "Microsoft.Network", "networkInterfaces", nicName, "ipConfigurations", ipName] from rfl]
  unfold parseComponents
  rw [show segmentPairs ["subscriptions", sub, "resourceGroups", rg, "providers", "Microsoft.Network", "networkInterfaces", nicName, "ipConfigurations", ipName] = some [("subscriptions", sub), ("resourceGroups", rg), ("providers", "Microsoft.Network"), ("networkInterfaces", nicName), ("ipConfigurations", ipName)] from rfl]
  exact hpp

/-- A character of joined segments is the separator or a character of one of
the segments. -/
theorem mem_joinSegments {c : Char} :
    ∀ {segs : List (List Char)}, c ∈ joinSegments segs →
      c = '/' ∨ ∃ s ∈ segs, c ∈ s
  | [], h => absurd h (List.not_mem_nil c)
  | [s], h => .inr ⟨s, by simp, by simpa [joinSegments] using h⟩
  | s :: t :: ts, h => by
    rw [joinSegments_cons_cons] at h
    rcases List.mem_append.mp h with h | h
    · exact .inr ⟨s, by simp, h⟩
    · rcases List.mem_cons.mp h with rfl | h
      · exact .inl rfl
      · rcases mem_joinSegments h with h | ⟨u, hu, hc⟩
        · exact .inl h
        · exact .inr ⟨u, List.mem_cons_of_mem s hu, hc⟩

/-- `strings.Split` of `x|y` on `|`, when neither side contains the
separator, yields exactly the two sides. -/
theorem goSplit_append_pipe (x y : String) (hx : '|' ∉ x.data) (hy : '|' ∉ y.data) :
    goSplit (x ++ "|" ++ y) '|' = [x, y] := by
  unfold goSplit
  have hdata : (x ++ "|" ++ y).data = x.data ++ '|' :: y.data := by
    rw [String.data_append, String.data_append]
    simp [List.append_assoc]
  rw [hdata, splitOnChar_append _ hx, splitOnChar_not_mem hy]
  rfl

/-- **C7**: the association identifier codec round-trips — decoding the
composite string written by Create recovers exactly the encoded fields —
and decoding errors on any input that does not split into exactly two
`|`-separated segments. -/
theorem claim7_association_id_codec_roundtrip
    (sub rg nicName ipName poolId : String)
    (hsub1 : sub ≠ "") (hsub2 : '/' ∉ sub.data) (hsub3 : '|' ∉ sub.data)
    (hrg1 : rg ≠ "") (hrg2 : '/' ∉ rg.data) (hrg3 : '|' ∉ rg.data)
    (hn1 : nicName ≠ "") (hn2 : '/' ∉ nicName.data) (hn3 : '|' ∉ nicName.data)
    (hip1 : ipName ≠ "") (hip2 : '/' ∉ ipName.data) (hip3 : '|' ∉ ipName.data)
    (hpool : '|' ∉ poolId.data) :
    decodeAssociationId
      (encodeAssociationId (mkNetworkInterfaceId sub rg nicName) ipName poolId) =
      .ok { resourceGroup := rg, networkInterfaceName := nicName,
            ipConfigurationName := ipName, backendAddressPoolId := poolId } ∧
    (∀ s : String, (goSplit s '|').length ≠ 2 →
      decodeAssociationId s = .error (.malformedId s)) := by
  constructor
  · have hx : '|' ∉ (mkNetworkInterfaceId sub rg nicName ++ "/ipConfigurations/" ++ ipName).data := by
      rw [mkNicIpData]
      intro h
      rcases List.mem_cons.mp h with h | h
      · exact absurd h (by decide)
      · rcases mem_joinSegments h with h | ⟨u, hu, hc⟩
        · exact absurd h (by decide)
        · simp only [List.mem_cons, List.not_mem_nil, or_false] at hu
          rcases hu with rfl | rfl | rfl | rfl | rfl | rfl | rfl | rfl | rfl | rfl
          · exact absurd hc (by decide)
          · exact hsub3 hc
          · exact absurd hc (by decide)
          · exact hrg3 hc
          · exact absurd hc (by decide)
          · exact absurd hc (by decide)
          · exact absurd hc (by decide)
          · exact hn3 hc
          · exact absurd hc (by decide)
          · exact hip3 hc
    have hsplit2 : goSplit
        (encodeAssociationId (mkNetworkInterfaceId sub rg nicName) ipName poolId) '|' =
        [mkNetworkInterfaceId sub rg nicName ++ "/ipConfigurations/" ++ ipName, poolId] := by
      unfold encodeAssociationId
      exact goSplit_append_pipe _ _ hx hpool
    have hdn : decodeNicPart
        (mkNetworkInterfaceId sub rg nicName ++ "/ipConfigurations/" ++ ipName) poolId =
        .ok { resourceGroup := rg, networkInterfaceName := nicName,
              ipConfigurationName := ipName, backendAddressPoolId := poolId } := by
      unfold decodeNicPart
      rw [parseAzureResourceID_nicConfig sub rg nicName ipName
        hsub1 hsub2 hrg1 hrg2 hn1 hn2 hip1 hip2]
      rfl
    unfold decodeAssociationId
    rw [hsplit2]
    exact hdn
  · intro s hs
    unfold decodeAssociationId
    cases hgs : goSplit s '|' with
    | nil => rfl
    | cons a t =>
      cases t with
      | nil => rfl
      | cons b t2 =>
        cases t2 with
        | nil => rw [hgs] at hs; simp at hs
        | cons c t3 => rfl

/-- Witness for `claim7_association_id_codec_roundtrip` at concrete inputs. -/
theorem claim7_association_id_codec_roundtrip_witness :
    decodeAssociationId (encodeAssociationId (mkNetworkInterfaceId "s" "rg" "nic1") "cfg1"
      "/subscriptions/s/resourceGroups/rg/providers/Microsoft.Network/loadBalancers/lb1/backendAddressPools/pool1") =
      .ok { resourceGroup := "rg", networkInterfaceName := "nic1",
            ipConfigurationName := "cfg1",
            backendAddressPoolId :=
              "/subscriptions/s/resourceGroups/rg/providers/Microsoft.Network/loadBalancers/lb1/backendAddressPools/pool1" } ∧
    decodeAssociationId "no-pipes-here" = .error (.malformedId "no-pipes-here") := by
  have h := claim7_association_id_codec_roundtrip "s" "rg" "nic1" "cfg1"
    "/subscriptions/s/resourceGroups/rg/providers/Microsoft.Network/loadBalancers/lb1/backendAddressPools/pool1"
    (by decide) (by decide) (by decide) (by decide) (by decide) (by decide)
    (by decide) (by decide) (by decide) (by decide) (by decide) (by decide)
    (by decide)
  exact ⟨h.1, h.2 "no-pipes-here" (by decide)⟩

end AzureRM
